import Mathlib

/-!
# Verification of the HVAC-Calc calculator suite

Shallow embedding of the calculator components of the HVAC-Calc repository
(React components in `src/project-bolt-sb1-2ypdycxx/project/src/components/`
plus the unnamed source parts), together with theorems settling the frozen
claims about the suite.

Modelling conventions:

* Text input fields (React `useState<string>` slots) are abstracted by their
  parse outcome: the empty string, a string parsing to a rational `q`, or a
  non-empty string with no parseable numeric prefix (`parseFloat` gives NaN).
* JavaScript numbers in the rational-arithmetic calculators are `Option ℚ`:
  `some q` is a finite value, `none` is a non-finite value (NaN or Infinity).
  Multiplication and division propagate `none`; division by zero gives `none`
  (JS produces Infinity or NaN there, both non-finite).
* The psychrometric components use `Math.exp` / `Math.log`; these are embedded
  over `ℝ` with `Real.exp` / `Real.log` (exact real semantics of the formulas,
  ignoring IEEE rounding).  `Math.log` of a non-positive argument yields a
  non-finite value in JS (`-Infinity` or NaN); where that matters the log is
  wrapped to return `Option ℝ` with `none` for non-positive arguments.
* The wet-bulb loop of the System Performance Calculator has no iteration
  bound, so it is embedded as the sequence of its iterates plus a predicate
  describing the value returned by a terminating run of the `while` loop.
-/

namespace HVAC

/-- A text input field, abstracted by its parse outcome: `empty` is the empty
string (falsy in the input guards), `num q` a string whose numeric prefix
parses to `q`, `junk` a non-empty string with no parseable numeric prefix. -/
inductive Field where
  | empty : Field
  | num : ℚ → Field
  | junk : Field
deriving DecidableEq

/-- JavaScript string truthiness for input fields: only the empty string is
falsy. -/
def Field.truthy : Field → Bool
  | .empty => false
  | _ => true

/-- A JavaScript number: `some q` finite, `none` non-finite (NaN/Infinity). -/
abbrev JsNum := Option ℚ

/-- `parseFloat` on a field: the empty string and junk both give NaN. -/
def Field.parseFloat : Field → JsNum
  | .empty => none
  | .num q => some q
  | .junk => none

/-- NaN-propagating multiplication. -/
def jmul : JsNum → JsNum → JsNum
  | some a, some b => some (a * b)
  | _, _ => none

/-- NaN-propagating subtraction. -/
def jsub : JsNum → JsNum → JsNum
  | some a, some b => some (a - b)
  | _, _ => none

/-- NaN-propagating division; division by zero gives a non-finite value. -/
def jdiv : JsNum → JsNum → JsNum
  | some a, some b => if b = 0 then none else some (a / b)
  | _, _ => none

/-- JS comparison `x <= c`: false when `x` is NaN. -/
def jleC (x : JsNum) (c : ℚ) : Bool :=
  match x with
  | some a => decide (a ≤ c)
  | none => false

/-- JS comparison `x < c`: false when `x` is NaN. -/
def jltC (x : JsNum) (c : ℚ) : Bool :=
  match x with
  | some a => decide (a < c)
  | none => false

/-- JS comparison `c <= x` (used as `size >= requiredCapacity`): false when
`x` is NaN. -/
def jgeC (c : ℚ) (x : JsNum) : Bool :=
  match x with
  | some a => decide (a ≤ c)
  | none => false

/-- JS comparison `c < x`: false when `x` is NaN. -/
def jgtC (x : JsNum) (c : ℚ) : Bool :=
  match x with
  | some a => decide (c < a)
  | none => false

/-- JS `Math.abs(x) <= c`: false when `x` is NaN. -/
def jabsLe (x : JsNum) (c : ℚ) : Bool :=
  match x with
  | some a => decide (|a| ≤ c)
  | none => false

/-- JS `toFixed(1)` rendering of a (positive, non-tie) finite number, as the
rational it displays: round to the nearest tenth. -/
def roundTo1 (x : ℚ) : ℚ := (⌊x * 10 + 1/2⌋ : ℤ) / 10

/-! ## CapacitorCalculator.tsx -/

namespace Capacitor

/-- The three input fields of the capacitor calculator. -/
structure Inputs where
  startWinding : Field
  voltage : Field
  ratedCapacitance : Field
deriving DecidableEq

/-- The optional comparison block of the result. -/
structure RatedComparison where
  value : JsNum
  withinRange : Bool
  percentDeviation : JsNum
deriving DecidableEq

/-- The `CapacitorResult` record. -/
structure CapacitorResult where
  capacitance : JsNum
  toleranceMin : JsNum
  toleranceMax : JsNum
  ratedComparison : Option RatedComparison
deriving DecidableEq

/-- Component state: the input fields plus the `result` slot (initially
`null`, i.e. `none`; left unchanged when the calculation is skipped). -/
structure State where
  inputs : Inputs
  result : Option CapacitorResult
deriving DecidableEq

/-- `calculateCapacitance` (lines 23-56): guard on truthiness of the two
required fields, then `C = (2653 × I) / V`, ±6% tolerance, and an optional
comparison against the rated value. -/
def calculateCapacitance (s : State) : State :=
  if ¬ s.inputs.startWinding.truthy ∨ ¬ s.inputs.voltage.truthy then s
  else
    let current := s.inputs.startWinding.parseFloat
    let volts := s.inputs.voltage.parseFloat
    let capacitance := jdiv (jmul (some 2653) current) volts
    let toleranceMin := jmul capacitance (some (94/100))
    let toleranceMax := jmul capacitance (some (106/100))
    let ratedComparison :=
      if s.inputs.ratedCapacitance.truthy then
        let value := s.inputs.ratedCapacitance.parseFloat
        let deviation := jmul (jdiv (jsub capacitance value) value) (some 100)
        some { value := value, withinRange := jabsLe deviation 6,
               percentDeviation := deviation }
      else none
    { inputs := s.inputs,
      result := some { capacitance := capacitance, toleranceMin := toleranceMin,
                       toleranceMax := toleranceMax,
                       ratedComparison := ratedComparison } }

end Capacitor

/-! ## Dehumidifier sizing calculator (second part of
`System Performance Calculator.tsx`, lines 452-620) -/

namespace Dehumidifier

/-- `BTU_TO_PINTS` (line 462). -/
def BTU_TO_PINTS : ℚ := 833/10000

/-- `SAFETY_FACTOR` (line 463). -/
def SAFETY_FACTOR : ℚ := 12/10

/-- `STANDARD_SIZES` (line 466). -/
def STANDARD_SIZES : List ℚ := [20, 30, 35, 50, 70, 90, 120, 150, 180, 250]

/-- `pintsPerDay` (line 483): `latentBTU * BTU_TO_PINTS * 24`. -/
def pintsPerDay (latentBTU : JsNum) : JsNum :=
  jmul (jmul latentBTU (some BTU_TO_PINTS)) (some 24)

/-- `capacityFactor` after the derating branches (lines 486-500). -/
def capacityFactor (temp rh : JsNum) : ℚ :=
  let f1 : ℚ := if jltC temp 65 then 7/10 else if jltC temp 70 then 85/100 else 1
  if jltC rh 60 then f1 * (8/10) else f1

/-- `requiredCapacity` (line 503): `(pintsPerDay / capacityFactor) * SAFETY_FACTOR`. -/
def requiredCapacity (latentBTU temp rh : JsNum) : JsNum :=
  jmul (jdiv (pintsPerDay latentBTU) (some (capacityFactor temp rh))) (some SAFETY_FACTOR)

/-- `recommendedSize` (line 506): first standard size `>=` the required
capacity, falling back to the largest standard size (`250`) when the `find`
comes back `undefined`. -/
def recommendedSize (latentBTU temp rh : JsNum) : ℚ :=
  (STANDARD_SIZES.find? (fun size => jgeC size (requiredCapacity latentBTU temp rh))).getD 250

end Dehumidifier

/-! ## AtticVentilationCalculator.tsx

The ventilation-area computation (lines 42-142) after the input-presence
guard; inputs are the parsed numeric values.  The two optional existing-area
fields arrive as `existingIntakeArea ? parseFloat(...) : 0`, hence plain reals
whose JS truthiness in the comparison branch is `≠ 0`. -/

namespace Attic

/-- `STACK_EFFECT_COEFFICIENT` (line 19). -/
noncomputable def STACK_EFFECT_COEFFICIENT : ℝ := 188/10000

/-- `MIN_VENT_RATIO` (line 21). -/
noncomputable def MIN_VENT_RATIO : ℝ := 1/300

/-- `RECOMMENDED_VENT_RATIO` (line 22). -/
noncomputable def RECOMMENDED_VENT_RATIO : ℝ := 1/150

/-- `INTAKE_TO_EXHAUST_RATIO` (line 23). -/
noncomputable def INTAKE_TO_EXHAUST_RATIO : ℝ := 15/10

/-- The warning / recommendation messages pushed by `calculateVentilation`,
as tags. -/
inductive Message where
  | highTempDiff
  | criticalTempDiff
  | highPressureDiff
  | highMoisture
  | belowMinimumCode
  | increaseToRecommended
  | addIntake
  | addExhaust
  | installIntake
  | installExhaust
  | morePositiveExhaust
  | moreIntakeBalance
deriving DecidableEq

/-- Ventilation status. -/
inductive Status where
  | adequate
  | inadequate
  | critical
deriving DecidableEq

/-- The `VentilationResult` record (numeric fields and tagged messages). -/
structure VentilationResult where
  pressureDifferential : ℝ
  temperatureDifferential : ℝ
  dewPointDifferential : ℝ
  stackEffect : ℝ
  requiredIntake : ℝ
  requiredExhaust : ℝ
  recommendations : List Message
  warnings : List Message
  ventilationStatus : Status

open Classical in
/-- `calculateVentilation` (lines 42-142) after parsing: stack effect,
required vent areas, warnings and status. -/
noncomputable def calculateVentilation (pressure outTemp outDP attTemp attDP area
    existingIntake existingExhaust : ℝ) : VentilationResult :=
  let tempDiff := attTemp - outTemp
  let dewPointDiff := attDP - outDP
  let stackEffect := STACK_EFFECT_COEFFICIENT * area * Real.sqrt |tempDiff| *
    Real.sign tempDiff
  let minVentArea := area * MIN_VENT_RATIO
  let recommendedVentArea := area * RECOMMENDED_VENT_RATIO
  let totalRequiredVentArea := recommendedVentArea
  let requiredIntake := (totalRequiredVentArea * INTAKE_TO_EXHAUST_RATIO) /
    (1 + INTAKE_TO_EXHAUST_RATIO)
  let requiredExhaust := totalRequiredVentArea - requiredIntake
  let warnings : List Message :=
    (if tempDiff > 20 then [Message.highTempDiff] else []) ++
    (if tempDiff > 30 then [Message.criticalTempDiff] else []) ++
    (if |pressure| > 2 then [Message.highPressureDiff] else []) ++
    (if dewPointDiff > 5 then [Message.highMoisture] else []) ++
    (if existingIntake ≠ 0 ∧ existingExhaust ≠ 0 ∧
        existingIntake + existingExhaust < minVentArea then
      [Message.belowMinimumCode] else [])
  let status : Status :=
    if existingIntake ≠ 0 ∧ existingExhaust ≠ 0 ∧
        existingIntake + existingExhaust < minVentArea then Status.critical
    else if tempDiff > 30 then Status.critical
    else if tempDiff > 20 ∨ |pressure| > 2 ∨ dewPointDiff > 5 then Status.inadequate
    else Status.adequate
  let recommendations : List Message :=
    (if existingIntake ≠ 0 ∧ existingExhaust ≠ 0 then
      (if minVentArea ≤ existingIntake + existingExhaust ∧
          existingIntake + existingExhaust < recommendedVentArea then
        [Message.increaseToRecommended] else []) ++
      (if existingIntake < requiredIntake then [Message.addIntake] else []) ++
      (if existingExhaust < requiredExhaust then [Message.addExhaust] else [])
    else [Message.installIntake, Message.installExhaust]) ++
    (if pressure > 0 then [Message.morePositiveExhaust]
     else if pressure < 0 then [Message.moreIntakeBalance] else [])
  { pressureDifferential := pressure
    temperatureDifferential := tempDiff
    dewPointDifferential := dewPointDiff
    stackEffect := stackEffect
    requiredIntake := requiredIntake
    requiredExhaust := requiredExhaust
    recommendations := recommendations
    warnings := warnings
    ventilationStatus := status }

end Attic

/-! ## MoldRiskCalculator.tsx

The numeric helpers work on `Option ℝ` (JS numbers with `none` for
non-finite values); all comparisons are false on `none`, matching JS NaN
comparison semantics. -/

namespace MoldRisk

/-- `WATER_VAPOR_CONSTANT` (line 14). -/
noncomputable def WATER_VAPOR_CONSTANT : ℝ := 17625/1000

/-- `WATER_VAPOR_TEMP_CONSTANT` (line 15). -/
noncomputable def WATER_VAPOR_TEMP_CONSTANT : ℝ := 24304/100

/-- NaN-propagating real addition. -/
def radd : Option ℝ → Option ℝ → Option ℝ
  | some a, some b => some (a + b)
  | _, _ => none

/-- NaN-propagating real subtraction. -/
def rsub : Option ℝ → Option ℝ → Option ℝ
  | some a, some b => some (a - b)
  | _, _ => none

/-- NaN-propagating real multiplication. -/
def rmul : Option ℝ → Option ℝ → Option ℝ
  | some a, some b => some (a * b)
  | _, _ => none

open Classical in
/-- NaN-propagating real division; division by zero (JS Infinity/NaN) gives
`none`. -/
noncomputable def rdiv : Option ℝ → Option ℝ → Option ℝ
  | some a, some b => if b = 0 then none else some (a / b)
  | _, _ => none

open Classical in
/-- JS `Math.log`: non-finite (`-Infinity` or NaN) on non-positive arguments,
collapsed to `none`. -/
noncomputable def jsLog : Option ℝ → Option ℝ
  | some x => if 0 < x then some (Real.log x) else none
  | none => none

open Classical in
/-- JS comparison `x < c`, false on NaN. -/
noncomputable def rltC (x : Option ℝ) (c : ℝ) : Bool :=
  match x with
  | some a => decide (a < c)
  | none => false

open Classical in
/-- JS comparison `x > c`, false on NaN. -/
noncomputable def rgtC (x : Option ℝ) (c : ℝ) : Bool :=
  match x with
  | some a => decide (c < a)
  | none => false

/-- `calculateDewPoint` (lines 22-25): Magnus inverse over Celsius inputs. -/
noncomputable def calculateDewPoint (t rh : Option ℝ) : Option ℝ :=
  let alpha := radd (jsLog (rdiv rh (some 100)))
    (rdiv (rmul (some WATER_VAPOR_CONSTANT) t) (radd (some WATER_VAPOR_TEMP_CONSTANT) t))
  rdiv (rmul (some WATER_VAPOR_TEMP_CONSTANT) alpha)
    (rsub (some WATER_VAPOR_CONSTANT) alpha)

/-- `calculateVaporPressure` (lines 27-29). -/
noncomputable def calculateVaporPressure (t : Option ℝ) : Option ℝ :=
  match rdiv (rmul (some WATER_VAPOR_CONSTANT) t) (radd (some WATER_VAPOR_TEMP_CONSTANT) t) with
  | some e => some (611/100 * Real.exp e)
  | none => none

/-- `calculateAbsoluteHumidity` (lines 31-34). -/
noncomputable def calculateAbsoluteHumidity (t rh : Option ℝ) : Option ℝ :=
  rdiv (rmul (rmul (some (216679/100000)) rh) (calculateVaporPressure t))
    (radd (some (27315/100)) t)

/-- Risk levels (lines 36-50). -/
inductive RiskLevel where
  | low
  | moderate
  | high
  | severe
deriving DecidableEq

/-- `calculateRiskLevel` (lines 36-50): the RH threshold ladder; NaN falls
through every `<` test into the `Severe` branch, as in JS. -/
noncomputable def calculateRiskLevel (rh : Option ℝ) : RiskLevel × Option ℕ :=
  if rltC rh 60 then (RiskLevel.low, none)
  else if rltC rh 70 then (RiskLevel.moderate, some 30)
  else if rltC rh 80 then (RiskLevel.high, some 14)
  else (RiskLevel.severe, some 7)

/-- Recommendation messages (lines 52-78), as tags. -/
inductive Advice where
  | dehumidifyBelow60
  | preventCondensation
  | improveVentilation
  | repairLeaks
  | continuousDehumidification
deriving DecidableEq

/-- `getRecommendations` (lines 52-78). -/
noncomputable def getRecommendations (t rh dewPoint : Option ℝ) (riskLevel : RiskLevel) :
    List Advice :=
  (if rgtC rh 60 then [Advice.dehumidifyBelow60] else []) ++
  (if rltC (rsub t dewPoint) 4 then [Advice.preventCondensation] else []) ++
  (if riskLevel ≠ RiskLevel.low then [Advice.improveVentilation, Advice.repairLeaks] else []) ++
  (if rgtC rh 70 then [Advice.continuousDehumidification] else [])

/-- The `MoldRiskResult` record. -/
structure MoldRiskResult where
  dewPoint : Option ℝ
  vaporPressure : Option ℝ
  absoluteHumidity : Option ℝ
  riskLevel : RiskLevel
  daysToMold : Option ℕ
  recommendations : List Advice

/-- The two input fields. -/
structure Inputs where
  dryBulb : Field
  relativeHumidity : Field

/-- Component state: inputs plus the `result` slot. -/
structure State where
  inputs : Inputs
  result : Option MoldRiskResult

/-- Lift a parsed JS number into the real-valued NaN-aware domain. -/
noncomputable def toR (x : JsNum) : Option ℝ := x.map (fun q => (q : ℝ))

/-- `calculateMoldRisk` (lines 80-100): guard on the two required fields,
then dew point, vapor pressure, absolute humidity, risk ladder and
recommendations. -/
noncomputable def calculateMoldRisk (s : State) : State :=
  if ¬ s.inputs.dryBulb.truthy ∨ ¬ s.inputs.relativeHumidity.truthy then s
  else
    let temp := toR s.inputs.dryBulb.parseFloat
    let rh := toR s.inputs.relativeHumidity.parseFloat
    let dewPoint := calculateDewPoint temp rh
    let vaporPressure := calculateVaporPressure temp
    let absoluteHumidity := calculateAbsoluteHumidity temp rh
    let risk := calculateRiskLevel rh
    let recommendations := getRecommendations temp rh dewPoint risk.1
    { inputs := s.inputs,
      result := some { dewPoint := dewPoint, vaporPressure := vaporPressure,
                       absoluteHumidity := absoluteHumidity, riskLevel := risk.1,
                       daysToMold := risk.2, recommendations := recommendations } }

end MoldRisk

/-! ## Psychrometric calculator, `System Performance Calculator.tsx` variant

Constants (lines 22-27): `ATMOSPHERIC_PRESSURE = 14.696` (psia),
`WATER_VAPOR_CONSTANT = 17.625`, `WATER_VAPOR_TEMP_CONSTANT = 243.04`.
The saturation pressure is the Magnus form `6.11 · exp(17.625·c/(243.04+c))`
(a kPa-scale formula), used against the psia constant `14.696` — the unit
mismatch noted in the spec. -/

namespace SystemPerf

/-- `ATMOSPHERIC_PRESSURE` (line 22). -/
noncomputable def ATMOSPHERIC_PRESSURE : ℝ := 14696/1000

/-- `calculateSaturationPressure` (lines 53-56). -/
noncomputable def calculateSaturationPressure (t : ℝ) : ℝ :=
  let celsius := (t - 32) * 5 / 9
  611/100 * Real.exp ((17625/1000 * celsius) / (24304/100 + celsius))

/-- `calculateHumidityRatio` (lines 81-85): `0.622·pw/(P_atm − pw)` with
`pw = (rh/100)·pws(db)`. -/
noncomputable def calculateHumidityRatio (db rh : ℝ) : ℝ :=
  let pws := calculateSaturationPressure db
  let pw := rh / 100 * pws
  622/1000 * pw / (ATMOSPHERIC_PRESSURE - pw)

/-- `calculateEnthalpy` (lines 87-89). -/
noncomputable def calculateEnthalpy (db w : ℝ) : ℝ :=
  24/100 * db + w * (1061 + 444/1000 * db)

/-- The error term computed inside the `calculateWetBulb` loop (lines 64-69):
`(db − wb) − (wSat(wb) − w)·1093` with
`wSat(wb) = 0.622·pws(wb)/(P_atm − pws(wb))`. -/
noncomputable def wbError (db w wb : ℝ) : ℝ :=
  let pwsWb := calculateSaturationPressure wb
  let wSat := 622/1000 * pwsWb / (ATMOSPHERIC_PRESSURE - pwsWb)
  (db - wb) - (wSat - w) * 1093

/-- The humidity ratio computed before the loop of `calculateWetBulb`
(lines 60-66): `w = 0.622·pw/(P_atm − pw)`, `pw = (rh/100)·pws(db)`; this is
the same expression as `calculateHumidityRatio db rh`. -/
noncomputable def wbW (db rh : ℝ) : ℝ := calculateHumidityRatio db rh

/-- The iterates of the (uncapped) `while` loop of `calculateWetBulb`
(lines 58-72): `wb₀ = db`, `wbₙ₊₁ = wbₙ + error(wbₙ)/100`. -/
noncomputable def wbSeq (db rh : ℝ) : ℕ → ℝ
  | 0 => db
  | n + 1 => wbSeq db rh n + wbError db (wbW db rh) (wbSeq db rh n) / 100

/-- `r` is the value returned by a terminating run of the `calculateWetBulb`
loop on `(db, rh)`: the loop exits right after the first iteration whose
computed error has magnitude `≤ 0.01` (the initial check is against the
seed error `1`, so at least one iteration always runs). -/
def WetBulbResult (db rh r : ℝ) : Prop :=
  ∃ N : ℕ, (∀ m < N, 1/100 < |wbError db (wbW db rh) (wbSeq db rh m)|) ∧
    |wbError db (wbW db rh) (wbSeq db rh N)| ≤ 1/100 ∧
    r = wbSeq db rh (N + 1)

open Classical in
/-- JS `Math.log` wrapped: `none` for the non-finite results on non-positive
arguments. -/
noncomputable def jsLog (x : ℝ) : Option ℝ :=
  if 0 < x then some (Real.log x) else none

/-- `calculateDewPoint` (lines 74-79): Magnus inverse, Fahrenheit in and out.
The `Math.log(rh/100)` factor makes the result non-finite for `rh ≤ 0`. -/
noncomputable def calculateDewPoint (db rh : ℝ) : Option ℝ :=
  let celsius := (db - 32) * 5 / 9
  (jsLog (rh / 100)).map fun l =>
    let alpha := l + (17625/1000 * celsius) / (24304/100 + celsius)
    let dewPointC := (24304/100 * alpha) / (17625/1000 - alpha)
    dewPointC * 9 / 5 + 32

/-- `calculateRHFromWetBulb` (lines 91-98). -/
noncomputable def calculateRHFromWetBulb (db wb : ℝ) : ℝ :=
  let pwsDb := calculateSaturationPressure db
  let pwsWb := calculateSaturationPressure wb
  let w := ((1093 - 556/1000 * wb) * pwsWb - 24/100 * (db - wb) * ATMOSPHERIC_PRESSURE) /
    ((1093 + 444/1000 * db - wb) * ATMOSPHERIC_PRESSURE)
  let pw := w * ATMOSPHERIC_PRESSURE / (622/1000 + w)
  pw / pwsDb * 100

/-- The humidity-source selector of `calculateProperties`. -/
inductive HumidityType where
  | rh
  | wb
  | dp
deriving DecidableEq

/-- The relative humidity actually used by `calculateProperties`
(lines 137-147 for the entering side, 158-168 for the leaving side): the raw
parsed value for `rh`, `calculateRHFromWetBulb` for `wb`, and the saturation
pressure ratio for `dp` — no clamping in this variant. -/
noncomputable def effectiveRH (ht : HumidityType) (db value : ℝ) : ℝ :=
  match ht with
  | .rh => value
  | .wb => calculateRHFromWetBulb db value
  | .dp => calculateSaturationPressure value / calculateSaturationPressure db * 100

end SystemPerf

/-! ## Psychrometric calculator, `src/unnamed/part_001` variant

This variant (lines 406-498) uses the Tetens-style saturation pressure
`0.6108 · exp(17.27·c/(c+237.3))` against the kPa constant `101.325`, and its
wet-bulb loop carries an explicit 100-iteration cap. -/

namespace P1

/-- `calculateSaturationPressure` (lines 437-442). -/
noncomputable def calculateSaturationPressure (t : ℝ) : ℝ :=
  let celsius := (t - 32) * 5 / 9
  6108/10000 * Real.exp ((1727/100 * celsius) / (celsius + 2373/10))

/-- `calculateHumidityRatio` (lines 444-449). -/
noncomputable def calculateHumidityRatio (db rh : ℝ) : ℝ :=
  let pws := calculateSaturationPressure db
  let pw := rh / 100 * pws
  622/1000 * pw / (101325/1000 - pw)

/-- The error term of the `calculateWetBulb` loop (lines 463-466):
`(db − wb) − (wsSat − w)·1093` with `wsSat = calculateHumidityRatio wb 100`. -/
noncomputable def wbError (db w wb : ℝ) : ℝ :=
  (db - wb) - (calculateHumidityRatio wb 100 - w) * 1093

/-- The iterates of the `calculateWetBulb` loop. -/
noncomputable def wbSeq (db w : ℝ) : ℕ → ℝ
  | 0 => db
  | n + 1 => wbSeq db w n + wbError db w (wbSeq db w n) / 100

/-- The loop iterates started from an arbitrary estimate `x` (used to reason
about the capped loop one step at a time). -/
noncomputable def iterFrom (db w x : ℝ) : ℕ → ℝ
  | 0 => x
  | n + 1 => iterFrom db w x n + wbError db w (iterFrom db w x n) / 100

/-- The capped loop of `calculateWetBulb` (lines 461-468): `fuel` is the
number of iterations still allowed (`100 − iteration`); the loop exits when
the previous error is small or the fuel runs out. -/
noncomputable def calculateWetBulbGo (db w : ℝ) : ℕ → ℝ → ℝ → ℝ
  | 0, wb, _ => wb
  | fuel + 1, wb, err =>
    if |err| ≤ 1/100 then wb
    else calculateWetBulbGo db w fuel (wb + wbError db w wb / 100) (wbError db w wb)

/-- `calculateWetBulb` (lines 456-470): start at `wb = db`, seed error `1`,
at most 100 iterations; returns the last estimate in every case. -/
noncomputable def calculateWetBulb (db rh : ℝ) : ℝ :=
  calculateWetBulbGo db (calculateHumidityRatio db rh) 100 db 1

/-- `calculateRHFromWetBulb` (lines 479-486); note it uses the
`ATMOSPHERIC_PRESSURE = 14.696` constant while this variant's humidity
ratio uses 101.325. -/
noncomputable def calculateRHFromWetBulb (db wb : ℝ) : ℝ :=
  let pwsDb := calculateSaturationPressure db
  let pwsWb := calculateSaturationPressure wb
  let w := ((1093 - 556/1000 * wb) * pwsWb - 24/100 * (db - wb) * (14696/1000)) /
    ((1093 + 444/1000 * db - wb) * (14696/1000))
  let pw := w * (14696/1000) / (622/1000 + w)
  pw / pwsDb * 100

/-- The relative humidity actually used by this variant's
`calculateProperties` (lines 531-543 entering, 551-563 leaving):
`Math.min(value, 100)` for the `rh` and `dp` sources — an upper clamp only —
and the unclamped `calculateRHFromWetBulb` for the `wb` source. -/
noncomputable def effectiveRH (ht : SystemPerf.HumidityType) (db value : ℝ) : ℝ :=
  match ht with
  | .rh => min value 100
  | .wb => calculateRHFromWetBulb db value
  | .dp => min (calculateSaturationPressure value / calculateSaturationPressure db * 100) 100

end P1

/-! ## The frozen claims, formalized -/

/-- Claim C2 as stated: a result is produced exactly when all required fields
are present **and parseable** (formalized for the two cited calculators). -/
def claimC2 : Prop :=
  (∀ s : Capacitor.State, s.result = none →
    ((Capacitor.calculateCapacitance s).result.isSome ↔
      (s.inputs.startWinding.parseFloat.isSome ∧ s.inputs.voltage.parseFloat.isSome))) ∧
  (∀ s : MoldRisk.State, s.result = none →
    ((MoldRisk.calculateMoldRisk s).result.isSome ↔
      (s.inputs.dryBulb.parseFloat.isSome ∧ s.inputs.relativeHumidity.parseFloat.isSome)))

/-- Claim C3 as stated: in every calculator that accepts an RH input, the
effective RH used downstream lies in `[0, 100]` (formalized for the two
cited psychrometric `calculateProperties` implementations). -/
def claimC3 : Prop :=
  ∀ (ht : SystemPerf.HumidityType) (db v : ℝ),
    (0 ≤ SystemPerf.effectiveRH ht db v ∧ SystemPerf.effectiveRH ht db v ≤ 100) ∧
    (0 ≤ P1.effectiveRH ht db v ∧ P1.effectiveRH ht db v ≤ 100)

/-- Claim C4 as stated: for `0 ≤ RH ≤ 100` the dew point is at most the dry
bulb, and any wet bulb returned by the solver lies between them. -/
def claimC4 : Prop :=
  ∀ db rh : ℝ, 0 ≤ rh → rh ≤ 100 →
    (∃ d, SystemPerf.calculateDewPoint db rh = some d ∧ d ≤ db) ∧
    (∀ r, SystemPerf.WetBulbResult db rh r →
      r ≤ db ∧ ∃ d, SystemPerf.calculateDewPoint db rh = some d ∧ d ≤ r)

/-- Claim C5 as stated: the saturated humidity ratio is strictly monotone in
temperature. -/
def claimC5 : Prop :=
  ∀ t1 t2 : ℝ, t1 < t2 →
    SystemPerf.calculateHumidityRatio t1 100 < SystemPerf.calculateHumidityRatio t2 100

/-- Claim C6 as stated: the wet-bulb round trip recovers RH within 0.5% for
`T ∈ [60, 100]`, `RH ∈ [10, 95]`. -/
def claimC6 : Prop :=
  ∀ db rh r : ℝ, 60 ≤ db → db ≤ 100 → 10 ≤ rh → rh ≤ 95 →
    SystemPerf.WetBulbResult db rh r →
    |SystemPerf.calculateRHFromWetBulb db r - rh| ≤ 5/1000 * rh

/-- Claim C7 as stated: the recommended dehumidifier size is always the
smallest standard size at least the required capacity. -/
def claimC7 : Prop :=
  ∀ l t h rq : ℚ, Dehumidifier.requiredCapacity (some l) (some t) (some h) = some rq →
    Dehumidifier.recommendedSize (some l) (some t) (some h) ∈ Dehumidifier.STANDARD_SIZES ∧
    rq ≤ Dehumidifier.recommendedSize (some l) (some t) (some h) ∧
    (∀ s ∈ Dehumidifier.STANDARD_SIZES, rq ≤ s →
      Dehumidifier.recommendedSize (some l) (some t) (some h) ≤ s)

/-- Claim C8 as stated: for `I = 5 A`, `V = 230 V` the displayed capacitance
is 57.7 μF and the displayed tolerance range is `[54.2, 61.2]` μF. -/
def claimC8 : Prop :=
  ((Capacitor.calculateCapacitance ⟨⟨.num 5, .num 230, .empty⟩, none⟩).result.map
    fun r => (r.capacitance.map roundTo1, r.toleranceMin.map roundTo1,
              r.toleranceMax.map roundTo1)) =
  some (some (577/10), some (542/10), some (612/10))

/-- Claim C9 as stated: two invocations with identical inputs yield identical
result records, with no dependence on prior invocations (formalized for the
two cited calculators over component states). -/
def claimC9 : Prop :=
  (∀ s₁ s₂ : Capacitor.State, s₁.inputs = s₂.inputs →
    (Capacitor.calculateCapacitance s₁).result = (Capacitor.calculateCapacitance s₂).result) ∧
  (∀ s₁ s₂ : MoldRisk.State, s₁.inputs = s₂.inputs →
    (MoldRisk.calculateMoldRisk s₁).result = (MoldRisk.calculateMoldRisk s₂).result)

/-! ## Helper lemmas -/

lemma Field.truthy_iff (f : Field) : f.truthy = true ↔ f ≠ Field.empty := by
  cases f <;> simp [Field.truthy]

/-! ## Claim C2 -/

/-- C2, counterexample: a non-empty but unparseable start-winding field passes
the truthiness guard, so a result record (holding NaN) is produced even though
the field is not parseable. -/
theorem c2_counterexample : ¬ claimC2 := by
  intro h
  have h5 := (h.1 ⟨⟨Field.junk, Field.num 230, Field.empty⟩, none⟩ rfl).mp (by decide)
  exact absurd h5.1 (by decide)

/-- C2, amended: a result is produced exactly when all required fields are
non-empty; parseability is not checked (an unparseable non-empty field yields
a result record containing NaN). -/
theorem c2_result_iff_nonempty :
    (∀ s : Capacitor.State, s.result = none →
      ((Capacitor.calculateCapacitance s).result.isSome ↔
        (s.inputs.startWinding ≠ Field.empty ∧ s.inputs.voltage ≠ Field.empty))) ∧
    (∀ s : MoldRisk.State, s.result = none →
      ((MoldRisk.calculateMoldRisk s).result.isSome ↔
        (s.inputs.dryBulb ≠ Field.empty ∧ s.inputs.relativeHumidity ≠ Field.empty))) := by
  constructor
  · intro s hres
    unfold Capacitor.calculateCapacitance
    by_cases h1 : s.inputs.startWinding.truthy <;>
      by_cases h2 : s.inputs.voltage.truthy <;>
        simp [h1, h2, hres, ← Field.truthy_iff]
  · intro s hres
    unfold MoldRisk.calculateMoldRisk
    by_cases h1 : s.inputs.dryBulb.truthy <;>
      by_cases h2 : s.inputs.relativeHumidity.truthy <;>
        simp [h1, h2, hres, ← Field.truthy_iff]

/-- C2, witness: the amended theorem applied to a concrete fresh capacitor
state with both required fields filled. -/
theorem c2_witness :
    (Capacitor.calculateCapacitance ⟨⟨Field.num 5, Field.num 230, Field.empty⟩, none⟩).result.isSome ↔
      (Field.num 5 ≠ Field.empty ∧ Field.num 230 ≠ Field.empty) :=
  c2_result_iff_nonempty.1 ⟨⟨Field.num 5, Field.num 230, Field.empty⟩, none⟩ rfl

/-! ## Claim C3 -/

/-- C3, counterexample: the System Performance Calculator variant uses the
raw parsed RH with no clamping at all — entering `150` uses `150`. -/
theorem c3_counterexample : ¬ claimC3 := by
  intro h
  have h150 := ((h SystemPerf.HumidityType.rh 80 150).1).2
  have : SystemPerf.effectiveRH SystemPerf.HumidityType.rh 80 150 = 150 := rfl
  rw [this] at h150
  norm_num at h150

/-- C3, amended: only the `part_001` psychrometric variant clamps, only for
the RH- and dew-point-derived sources, and only from above (`min · 100`);
there is no lower clamp to 0 anywhere, and the other variant does not clamp. -/
theorem c3_p1_clamped_above :
    ∀ db v : ℝ, P1.effectiveRH SystemPerf.HumidityType.rh db v ≤ 100 ∧
      P1.effectiveRH SystemPerf.HumidityType.dp db v ≤ 100 :=
  fun _ _ => ⟨min_le_right _ _, min_le_right _ _⟩

/-! ## Claim C9 -/

/-- C9, counterexample: with identical (insufficient) inputs, the result after
the call still depends on the previous result — the stale record is kept. -/
theorem c9_counterexample : ¬ claimC9 := by
  intro h
  have := h.1 ⟨⟨Field.empty, Field.empty, Field.empty⟩, none⟩
    ⟨⟨Field.empty, Field.empty, Field.empty⟩,
      some { capacitance := none, toleranceMin := none, toleranceMax := none,
             ratedComparison := none }⟩ rfl
  exact absurd this (by decide)

/-- C9, amended: when the required fields are non-empty (so the guard passes),
the produced result depends only on the inputs — identical inputs give
identical result records regardless of any prior state. -/
theorem c9_deterministic_on_inputs :
    (∀ s₁ s₂ : Capacitor.State, s₁.inputs = s₂.inputs →
      s₁.inputs.startWinding.truthy → s₁.inputs.voltage.truthy →
      (Capacitor.calculateCapacitance s₁).result = (Capacitor.calculateCapacitance s₂).result) ∧
    (∀ s₁ s₂ : MoldRisk.State, s₁.inputs = s₂.inputs →
      s₁.inputs.dryBulb.truthy → s₁.inputs.relativeHumidity.truthy →
      (MoldRisk.calculateMoldRisk s₁).result = (MoldRisk.calculateMoldRisk s₂).result) := by
  constructor
  · rintro ⟨i₁, r₁⟩ ⟨i₂, r₂⟩ hi h1 h2
    cases hi
    simp [Capacitor.calculateCapacitance, h1, h2]
  · rintro ⟨i₁, r₁⟩ ⟨i₂, r₂⟩ hi h1 h2
    cases hi
    simp [MoldRisk.calculateMoldRisk, h1, h2]

/-- C9, witness: the amended determinism applied to concrete capacitor states
with filled inputs but different prior results. -/
theorem c9_witness :
    (Capacitor.calculateCapacitance ⟨⟨Field.num 5, Field.num 230, Field.empty⟩, none⟩).result =
      (Capacitor.calculateCapacitance ⟨⟨Field.num 5, Field.num 230, Field.empty⟩,
        some { capacitance := none, toleranceMin := none, toleranceMax := none,
               ratedComparison := none }⟩).result :=
  c9_deterministic_on_inputs.1 _ _ rfl (by decide) (by decide)

/-! ## Claim C8 -/

lemma c8_compute :
    ((Capacitor.calculateCapacitance ⟨⟨.num 5, .num 230, .empty⟩, none⟩).result.map
      fun r => (r.capacitance.map roundTo1, r.toleranceMin.map roundTo1,
                r.toleranceMax.map roundTo1)) =
    some (some (577/10), some (542/10), some (611/10)) := by
  simp only [Capacitor.calculateCapacitance, Field.truthy, Field.parseFloat, jmul, jdiv,
    jsub, jabsLe, roundTo1, Option.map]
  norm_num [roundTo1, Int.floor_eq_iff]

/-- C8, amended: for `I = 5 A`, `V = 230 V` the displayed capacitance is
57.7 μF and the displayed tolerance range is `[54.2, 61.1]` μF. -/
theorem c8_values :
    ((Capacitor.calculateCapacitance ⟨⟨.num 5, .num 230, .empty⟩, none⟩).result.map
      fun r => (r.capacitance.map roundTo1, r.toleranceMin.map roundTo1,
                r.toleranceMax.map roundTo1)) =
    some (some (577/10), some (542/10), some (611/10)) := c8_compute

/-- C8, counterexample: the upper end of the ±6% tolerance range displays as
61.1 μF, not 61.2 μF (`57.6739… × 1.06 = 61.134…`). -/
theorem c8_counterexample : ¬ claimC8 := by
  intro h
  rw [claimC8, c8_compute] at h
  norm_num at h

/-! ## Claim C10 -/

/-- C10 (confirmed): the attic calculator's required vent areas satisfy
`intake = 1.5 × exhaust` and `intake + exhaust = area / 150` exactly, and do
not depend on the pressure, temperature and dew-point inputs. -/
theorem c10_attic_vent_identities :
    ∀ p o od a ad area ei ee : ℝ,
      (Attic.calculateVentilation p o od a ad area ei ee).requiredIntake =
        15/10 * (Attic.calculateVentilation p o od a ad area ei ee).requiredExhaust ∧
      (Attic.calculateVentilation p o od a ad area ei ee).requiredIntake +
        (Attic.calculateVentilation p o od a ad area ei ee).requiredExhaust =
        area * (1/150) ∧
      (∀ p' o' od' a' ad' ei' ee' : ℝ,
        (Attic.calculateVentilation p' o' od' a' ad' area ei' ee').requiredIntake =
          (Attic.calculateVentilation p o od a ad area ei ee).requiredIntake ∧
        (Attic.calculateVentilation p' o' od' a' ad' area ei' ee').requiredExhaust =
          (Attic.calculateVentilation p o od a ad area ei ee).requiredExhaust) := by
  intro p o od a ad area ei ee
  refine ⟨?_, ?_, fun p' o' od' a' ad' ei' ee' => ⟨rfl, rfl⟩⟩
  · show (area * Attic.RECOMMENDED_VENT_RATIO * Attic.INTAKE_TO_EXHAUST_RATIO) /
        (1 + Attic.INTAKE_TO_EXHAUST_RATIO) =
      15/10 * (area * Attic.RECOMMENDED_VENT_RATIO -
        (area * Attic.RECOMMENDED_VENT_RATIO * Attic.INTAKE_TO_EXHAUST_RATIO) /
          (1 + Attic.INTAKE_TO_EXHAUST_RATIO))
    unfold Attic.RECOMMENDED_VENT_RATIO Attic.INTAKE_TO_EXHAUST_RATIO
    ring
  · show (area * Attic.RECOMMENDED_VENT_RATIO * Attic.INTAKE_TO_EXHAUST_RATIO) /
        (1 + Attic.INTAKE_TO_EXHAUST_RATIO) +
      (area * Attic.RECOMMENDED_VENT_RATIO -
        (area * Attic.RECOMMENDED_VENT_RATIO * Attic.INTAKE_TO_EXHAUST_RATIO) /
          (1 + Attic.INTAKE_TO_EXHAUST_RATIO)) = area * (1/150)
    unfold Attic.RECOMMENDED_VENT_RATIO Attic.INTAKE_TO_EXHAUST_RATIO
    ring

/-! ## Claim C7 -/

/-- C7, amended: the recommended size is the smallest standard size at least
the required capacity when one exists; when the required capacity exceeds every
standard size the code falls back to the largest size, 250 pints/day (and
pushes a warning).  For latent load 10000 BTU/hr at 75 °F / 65 % RH no
derating is applied. -/
theorem c7_recommended_size :
    ∀ l t h rq : ℚ, Dehumidifier.requiredCapacity (some l) (some t) (some h) = some rq →
      Dehumidifier.recommendedSize (some l) (some t) (some h) ∈ Dehumidifier.STANDARD_SIZES ∧
      ((∃ s ∈ Dehumidifier.STANDARD_SIZES, rq ≤ s) →
        rq ≤ Dehumidifier.recommendedSize (some l) (some t) (some h) ∧
        ∀ s ∈ Dehumidifier.STANDARD_SIZES, rq ≤ s →
          Dehumidifier.recommendedSize (some l) (some t) (some h) ≤ s) ∧
      ((∀ s ∈ Dehumidifier.STANDARD_SIZES, s < rq) →
        Dehumidifier.recommendedSize (some l) (some t) (some h) = 250) ∧
      Dehumidifier.capacityFactor (some 75) (some 65) = 1 := by
  intro l t h rq hreq
  have hcf : Dehumidifier.capacityFactor (some 75) (some 65) = 1 := by
    norm_num [Dehumidifier.capacityFactor, jltC]
  by_cases h20 : rq ≤ 20
  · have hrec : Dehumidifier.recommendedSize (some l) (some t) (some h) = 20 := by
      simp [Dehumidifier.recommendedSize, hreq, Dehumidifier.STANDARD_SIZES, List.find?, jgeC, h20]
    rw [hrec]
    refine ⟨by norm_num [Dehumidifier.STANDARD_SIZES], fun _ => ⟨h20, ?_⟩, fun hall => ?_, hcf⟩
    · intro s hs hle
      fin_cases hs <;> linarith
    · exact absurd (hall 20 (by norm_num [Dehumidifier.STANDARD_SIZES])) (by linarith)
  · 
    by_cases h30 : rq ≤ 30
    · have hrec : Dehumidifier.recommendedSize (some l) (some t) (some h) = 30 := by
        simp [Dehumidifier.recommendedSize, hreq, Dehumidifier.STANDARD_SIZES, List.find?, jgeC, h20, h30]
      rw [hrec]
      refine ⟨by norm_num [Dehumidifier.STANDARD_SIZES], fun _ => ⟨h30, ?_⟩, fun hall => ?_, hcf⟩
      · intro s hs hle
        fin_cases hs <;> linarith
      · exact absurd (hall 30 (by norm_num [Dehumidifier.STANDARD_SIZES])) (by linarith)
    · 
      by_cases h35 : rq ≤ 35
      · have hrec : Dehumidifier.recommendedSize (some l) (some t) (some h) = 35 := by
          simp [Dehumidifier.recommendedSize, hreq, Dehumidifier.STANDARD_SIZES, List.find?, jgeC, h20, h30, h35]
        rw [hrec]
        refine ⟨by norm_num [Dehumidifier.STANDARD_SIZES], fun _ => ⟨h35, ?_⟩, fun hall => ?_, hcf⟩
        · intro s hs hle
          fin_cases hs <;> linarith
        · exact absurd (hall 35 (by norm_num [Dehumidifier.STANDARD_SIZES])) (by linarith)
      · 
        by_cases h50 : rq ≤ 50
        · have hrec : Dehumidifier.recommendedSize (some l) (some t) (some h) = 50 := by
            simp [Dehumidifier.recommendedSize, hreq, Dehumidifier.STANDARD_SIZES, List.find?, jgeC, h20, h30, h35, h50]
          rw [hrec]
          refine ⟨by norm_num [Dehumidifier.STANDARD_SIZES], fun _ => ⟨h50, ?_⟩, fun hall => ?_, hcf⟩
          · intro s hs hle
            fin_cases hs <;> linarith
          · exact absurd (hall 50 (by norm_num [Dehumidifier.STANDARD_SIZES])) (by linarith)
        · 
          by_cases h70 : rq ≤ 70
          · have hrec : Dehumidifier.recommendedSize (some l) (some t) (some h) = 70 := by
              simp [Dehumidifier.recommendedSize, hreq, Dehumidifier.STANDARD_SIZES, List.find?, jgeC, h20, h30, h35, h50, h70]
            rw [hrec]
            refine ⟨by norm_num [Dehumidifier.STANDARD_SIZES], fun _ => ⟨h70, ?_⟩, fun hall => ?_, hcf⟩
            · intro s hs hle
              fin_cases hs <;> linarith
            · exact absurd (hall 70 (by norm_num [Dehumidifier.STANDARD_SIZES])) (by linarith)
          · 
            by_cases h90 : rq ≤ 90
            · have hrec : Dehumidifier.recommendedSize (some l) (some t) (some h) = 90 := by
                simp [Dehumidifier.recommendedSize, hreq, Dehumidifier.STANDARD_SIZES, List.find?, jgeC, h20, h30, h35, h50, h70, h90]
              rw [hrec]
              refine ⟨by norm_num [Dehumidifier.STANDARD_SIZES], fun _ => ⟨h90, ?_⟩, fun hall => ?_, hcf⟩
              · intro s hs hle
                fin_cases hs <;> linarith
              · exact absurd (hall 90 (by norm_num [Dehumidifier.STANDARD_SIZES])) (by linarith)
            · 
              by_cases h120 : rq ≤ 120
              · have hrec : Dehumidifier.recommendedSize (some l) (some t) (some h) = 120 := by
                  simp [Dehumidifier.recommendedSize, hreq, Dehumidifier.STANDARD_SIZES, List.find?, jgeC, h20, h30, h35, h50, h70, h90, h120]
                rw [hrec]
                refine ⟨by norm_num [Dehumidifier.STANDARD_SIZES], fun _ => ⟨h120, ?_⟩, fun hall => ?_, hcf⟩
                · intro s hs hle
                  fin_cases hs <;> linarith
                · exact absurd (hall 120 (by norm_num [Dehumidifier.STANDARD_SIZES])) (by linarith)
              · 
                by_cases h150 : rq ≤ 150
                · have hrec : Dehumidifier.recommendedSize (some l) (some t) (some h) = 150 := by
                    simp [Dehumidifier.recommendedSize, hreq, Dehumidifier.STANDARD_SIZES, List.find?, jgeC, h20, h30, h35, h50, h70, h90, h120, h150]
                  rw [hrec]
                  refine ⟨by norm_num [Dehumidifier.STANDARD_SIZES], fun _ => ⟨h150, ?_⟩, fun hall => ?_, hcf⟩
                  · intro s hs hle
                    fin_cases hs <;> linarith
                  · exact absurd (hall 150 (by norm_num [Dehumidifier.STANDARD_SIZES])) (by linarith)
                · 
                  by_cases h180 : rq ≤ 180
                  · have hrec : Dehumidifier.recommendedSize (some l) (some t) (some h) = 180 := by
                      simp [Dehumidifier.recommendedSize, hreq, Dehumidifier.STANDARD_SIZES, List.find?, jgeC, h20, h30, h35, h50, h70, h90, h120, h150, h180]
                    rw [hrec]
                    refine ⟨by norm_num [Dehumidifier.STANDARD_SIZES], fun _ => ⟨h180, ?_⟩, fun hall => ?_, hcf⟩
                    · intro s hs hle
                      fin_cases hs <;> linarith
                    · exact absurd (hall 180 (by norm_num [Dehumidifier.STANDARD_SIZES])) (by linarith)
                  · 
                    by_cases h250 : rq ≤ 250
                    · have hrec : Dehumidifier.recommendedSize (some l) (some t) (some h) = 250 := by
                        simp [Dehumidifier.recommendedSize, hreq, Dehumidifier.STANDARD_SIZES, List.find?, jgeC, h20, h30, h35, h50, h70, h90, h120, h150, h180, h250]
                      rw [hrec]
                      refine ⟨by norm_num [Dehumidifier.STANDARD_SIZES], fun _ => ⟨h250, ?_⟩, fun hall => ?_, hcf⟩
                      · intro s hs hle
                        fin_cases hs <;> linarith
                      · exact absurd (hall 250 (by norm_num [Dehumidifier.STANDARD_SIZES])) (by linarith)
                    · 
                      have hrec : Dehumidifier.recommendedSize (some l) (some t) (some h) = 250 := by
                        simp [Dehumidifier.recommendedSize, hreq, Dehumidifier.STANDARD_SIZES, List.find?, jgeC, h20, h30, h35, h50, h70, h90, h120, h150, h180, h250]
                      rw [hrec]
                      refine ⟨by norm_num [Dehumidifier.STANDARD_SIZES], fun hex => ?_, fun _ => rfl, hcf⟩
                      obtain ⟨s, hs, hle⟩ := hex
                      exfalso
                      fin_cases hs <;> simp_all

lemma c7_req_compute :
    Dehumidifier.requiredCapacity (some 10000) (some 75) (some 65) = some (119952/5) := by
  norm_num [Dehumidifier.requiredCapacity, Dehumidifier.pintsPerDay,
    Dehumidifier.capacityFactor, Dehumidifier.BTU_TO_PINTS, Dehumidifier.SAFETY_FACTOR,
    jmul, jdiv, jltC]

lemma c7_rec_compute :
    Dehumidifier.recommendedSize (some 10000) (some 75) (some 65) = 250 := by
  have h : ∀ s : ℚ, jgeC s (Dehumidifier.requiredCapacity (some 10000) (some 75) (some 65)) =
      decide ((119952/5 : ℚ) ≤ s) := by
    intro s
    rw [c7_req_compute, jgeC]
  simp only [Dehumidifier.recommendedSize, Dehumidifier.STANDARD_SIZES, List.find?, h]
  norm_num

/-- C7, counterexample: at latent load 10000 BTU/hr, 75 °F, 65 % RH the
required capacity is 23990.4 pints/day, yet the recommended size is the 250
pints/day fallback, which is smaller — not a standard size at least the
required capacity. -/
theorem c7_counterexample : ¬ claimC7 := by
  intro h
  have h1 := (h 10000 75 65 (119952/5) c7_req_compute).2.1
  rw [c7_rec_compute] at h1
  norm_num at h1

/-- C7, witness: the amended size rule applied at the concrete input
`(10000, 75, 65)`, discharging the fallback hypothesis. -/
theorem c7_witness :
    Dehumidifier.recommendedSize (some 10000) (some 75) (some 65) = 250 ∧
    Dehumidifier.capacityFactor (some 75) (some 65) = 1 := by
  obtain ⟨-, -, hfall, hcf⟩ := c7_recommended_size 10000 75 65 (119952/5) c7_req_compute
  refine ⟨hfall ?_, hcf⟩
  intro s hs
  fin_cases hs <;> norm_num


/-! ## Helper facts about the Magnus saturation pressure and the wSat form -/

/-- The `wSat` expression of the wet-bulb loop body, as a function of the
saturation pressure value: `0.622·p/(14.696 − p)`. -/
noncomputable def wsatP (p : ℝ) : ℝ := 622/1000 * p / (14696/1000 - p)

lemma wbError_eq_wsatP (db w wb : ℝ) :
    SystemPerf.wbError db w wb =
      (db - wb) - (wsatP (SystemPerf.calculateSaturationPressure wb) - w) * 1093 := rfl

lemma calculateHumidityRatio_eq_wsatP (db rh : ℝ) :
    SystemPerf.calculateHumidityRatio db rh =
      wsatP (rh / 100 * SystemPerf.calculateSaturationPressure db) := rfl

lemma pws_pos (t : ℝ) : 0 < SystemPerf.calculateSaturationPressure t := by
  unfold SystemPerf.calculateSaturationPressure
  positivity

lemma pws_mono {x y : ℝ} (hx : -405472/1000 < x) (hxy : x ≤ y) :
    SystemPerf.calculateSaturationPressure x ≤ SystemPerf.calculateSaturationPressure y := by
  unfold SystemPerf.calculateSaturationPressure
  have hdx : (0:ℝ) < 24304/100 + (x - 32) * 5 / 9 := by linarith
  have hdy : (0:ℝ) < 24304/100 + (y - 32) * 5 / 9 := by linarith
  have hexp : (17625/1000 * ((x - 32) * 5 / 9)) / (24304/100 + (x - 32) * 5 / 9) ≤
      (17625/1000 * ((y - 32) * 5 / 9)) / (24304/100 + (y - 32) * 5 / 9) := by
    rw [div_le_div_iff₀ hdx hdy]
    nlinarith
  have := Real.exp_le_exp.mpr hexp
  nlinarith [this]

lemma pws_strictMono {x y : ℝ} (hx : -405472/1000 < x) (hxy : x < y) :
    SystemPerf.calculateSaturationPressure x < SystemPerf.calculateSaturationPressure y := by
  unfold SystemPerf.calculateSaturationPressure
  have hdx : (0:ℝ) < 24304/100 + (x - 32) * 5 / 9 := by linarith
  have hdy : (0:ℝ) < 24304/100 + (y - 32) * 5 / 9 := by linarith
  have hexp : (17625/1000 * ((x - 32) * 5 / 9)) / (24304/100 + (x - 32) * 5 / 9) <
      (17625/1000 * ((y - 32) * 5 / 9)) / (24304/100 + (y - 32) * 5 / 9) := by
    rw [div_lt_div_iff₀ hdx hdy]
    nlinarith
  have := Real.exp_lt_exp.mpr hexp
  nlinarith [this]

lemma wsatP_mono_lt {p q : ℝ} (hpq : p ≤ q) (hq : q < 14696/1000) : wsatP p ≤ wsatP q := by
  unfold wsatP
  have hp : (0:ℝ) < 14696/1000 - p := by linarith
  have hq2 : (0:ℝ) < 14696/1000 - q := by linarith
  rw [div_le_div_iff₀ hp hq2]
  nlinarith

lemma wsatP_strictMono_lt {p q : ℝ} (hpq : p < q) (hq : q < 14696/1000) : wsatP p < wsatP q := by
  unfold wsatP
  have hp : (0:ℝ) < 14696/1000 - p := by linarith
  have hq2 : (0:ℝ) < 14696/1000 - q := by linarith
  rw [div_lt_div_iff₀ hp hq2]
  nlinarith

/-- The wSat expression through the partial-fraction identity
`0.622·p/(14.696−p) = −0.622 − (0.622·14.696)/(p−14.696)`. -/
lemma wsatP_pf {p : ℝ} (hp : p ≠ 14696/1000) :
    wsatP p = -(622/1000) - (622/1000 * (14696/1000)) / (p - 14696/1000) := by
  have h1 : p - 14696/1000 ≠ 0 := sub_ne_zero.mpr hp
  have e1 : wsatP p = (-(622/1000) * p) / (p - 14696/1000) := by
    rw [wsatP, show (14696:ℝ)/1000 - p = -(p - 14696/1000) by ring, div_neg]
    ring
  rw [e1, eq_sub_iff_add_eq, div_add_div_same, div_eq_iff h1]
  ring

lemma wsatP_mono_gt {p q : ℝ} (hp : 14696/1000 < p) (hpq : p ≤ q) : wsatP p ≤ wsatP q := by
  have hq : (14696:ℝ)/1000 < q := lt_of_lt_of_le hp hpq
  rw [wsatP_pf (ne_of_gt hp), wsatP_pf (ne_of_gt hq)]
  have h2 : (622/1000 * (14696/1000) : ℝ) / (q - 14696/1000) ≤
      (622/1000 * (14696/1000)) / (p - 14696/1000) := by
    gcongr
    linarith
  linarith

lemma wsatP_neg_of_gt {p : ℝ} (hp : 14696/1000 < p) : wsatP p ≤ -(622/1000) := by
  rw [wsatP_pf (ne_of_gt hp)]
  have h2 : (0:ℝ) ≤ (622/1000 * (14696/1000)) / (p - 14696/1000) := by
    apply div_nonneg (by norm_num)
    linarith
  linarith

lemma wsatP_pos_of_lt {p : ℝ} (h0 : 0 < p) (hp : p < 14696/1000) : 0 < wsatP p := by
  unfold wsatP
  exact div_pos (by positivity) (by linarith)

/-! ## Certified bounds on the saturation pressure -/

lemma pws_t70_lo : (12495641315627/500000000000 : ℝ) ≤ SystemPerf.calculateSaturationPressure (70 : ℝ) := by
  have harg : SystemPerf.calculateSaturationPressure (70:ℝ) = 611/100 * Real.exp (334875/237736:ℝ) := by
    simp only [SystemPerf.calculateSaturationPressure]
    norm_num
  have hsq : Real.exp (334875/237736:ℝ) = Real.exp (334875/475472:ℝ)^2 := by
    rw [show (334875/237736:ℝ) = (2:ℕ) * (334875/475472:ℝ) by norm_num, Real.exp_nat_mul]
  have hT : (20224307874175271/10000000000000000:ℝ) ≤ Real.exp (334875/475472:ℝ) := by
    refine le_trans ?_ (Real.sum_le_exp_of_nonneg (by norm_num) 14)
    simp only [Finset.sum_range_succ, Finset.sum_range_zero]
    norm_num [Nat.factorial]
  have hp : (20224307874175271/10000000000000000:ℝ)^2 ≤ Real.exp (334875/475472:ℝ)^2 := pow_le_pow_left₀ (by norm_num) hT 2
  rw [harg, hsq]
  nlinarith [hp]

lemma pws_t70_hi : SystemPerf.calculateSaturationPressure (70 : ℝ) ≤ (24991282631257/1000000000000 : ℝ) := by
  have harg : SystemPerf.calculateSaturationPressure (70:ℝ) = 611/100 * Real.exp (334875/237736:ℝ) := by
    simp only [SystemPerf.calculateSaturationPressure]
    norm_num
  have hsq : Real.exp (334875/237736:ℝ) = Real.exp (334875/475472:ℝ)^2 := by
    rw [show (334875/237736:ℝ) = (2:ℕ) * (334875/475472:ℝ) by norm_num, Real.exp_nat_mul]
  have hT : Real.exp (334875/475472:ℝ) ≤ (1011215393708809/500000000000000:ℝ) := by
    refine le_trans (@Real.exp_bound' (334875/475472:ℝ) (by norm_num) (by norm_num) 14 (by norm_num)) ?_
    simp only [Finset.sum_range_succ, Finset.sum_range_zero]
    norm_num [Nat.factorial]
  have hp : Real.exp (334875/475472:ℝ)^2 ≤ (1011215393708809/500000000000000:ℝ)^2 := pow_le_pow_left₀ (Real.exp_pos _).le hT 2
  rw [harg, hsq]
  nlinarith [hp]

lemma pws_t50_hi : SystemPerf.calculateSaturationPressure (50 : ℝ) ≤ (490456416669/40000000000 : ℝ) := by
  have harg : SystemPerf.calculateSaturationPressure (50:ℝ) = 611/100 * Real.exp (17625/25304:ℝ) := by
    simp only [SystemPerf.calculateSaturationPressure]
    norm_num
  have hsq : Real.exp (17625/25304:ℝ) = Real.exp (17625/50608:ℝ)^2 := by
    rw [show (17625/25304:ℝ) = (2:ℕ) * (17625/50608:ℝ) by norm_num, Real.exp_nat_mul]
  have hT : Real.exp (17625/50608:ℝ) ≤ (14166077376179067/10000000000000000:ℝ) := by
    refine le_trans (@Real.exp_bound' (17625/50608:ℝ) (by norm_num) (by norm_num) 14 (by norm_num)) ?_
    simp only [Finset.sum_range_succ, Finset.sum_range_zero]
    norm_num [Nat.factorial]
  have hp : Real.exp (17625/50608:ℝ)^2 ≤ (14166077376179067/10000000000000000:ℝ)^2 := pow_le_pow_left₀ (Real.exp_pos _).le hT 2
  rw [harg, hsq]
  nlinarith [hp]

lemma pws_x1lo_lo : (745977995279/31250000000 : ℝ) ≤ SystemPerf.calculateSaturationPressure (34329719009759/500000000000 : ℝ) := by
  have harg : SystemPerf.calculateSaturationPressure (34329719009759/500000000000:ℝ) = 611/100 * Real.exp (2584490380376019/1896525752078072:ℝ) := by
    simp only [SystemPerf.calculateSaturationPressure]
    norm_num
  have hsq : Real.exp (2584490380376019/1896525752078072:ℝ) = Real.exp (2584490380376019/3793051504156144:ℝ)^2 := by
    rw [show (2584490380376019/1896525752078072:ℝ) = (2:ℕ) * (2584490380376019/3793051504156144:ℝ) by norm_num, Real.exp_nat_mul]
  have hT : (19765936349015621/10000000000000000:ℝ) ≤ Real.exp (2584490380376019/3793051504156144:ℝ) := by
    refine le_trans ?_ (Real.sum_le_exp_of_nonneg (by norm_num) 14)
    simp only [Finset.sum_range_succ, Finset.sum_range_zero]
    norm_num [Nat.factorial]
  have hp : (19765936349015621/10000000000000000:ℝ)^2 ≤ Real.exp (2584490380376019/3793051504156144:ℝ)^2 := pow_le_pow_left₀ (by norm_num) hT 2
  rw [harg, hsq]
  nlinarith [hp]

lemma pws_x1hi_hi : SystemPerf.calculateSaturationPressure (34329719009781/500000000000 : ℝ) ≤ (23871295848967/1000000000000 : ℝ) := by
  have harg : SystemPerf.calculateSaturationPressure (34329719009781/500000000000:ℝ) = 611/100 * Real.exp (2584490380379121/1896525752078248:ℝ) := by
    simp only [SystemPerf.calculateSaturationPressure]
    norm_num
  have hsq : Real.exp (2584490380379121/1896525752078248:ℝ) = Real.exp (2584490380379121/3793051504156496:ℝ)^2 := by
    rw [show (2584490380379121/1896525752078248:ℝ) = (2:ℕ) * (2584490380379121/3793051504156496:ℝ) by norm_num, Real.exp_nat_mul]
  have hT : Real.exp (2584490380379121/3793051504156496:ℝ) ≤ (4941484087257777/2500000000000000:ℝ) := by
    refine le_trans (@Real.exp_bound' (2584490380379121/3793051504156496:ℝ) (by norm_num) (by norm_num) 14 (by norm_num)) ?_
    simp only [Finset.sum_range_succ, Finset.sum_range_zero]
    norm_num [Nat.factorial]
  have hp : Real.exp (2584490380379121/3793051504156496:ℝ)^2 ≤ (4941484087257777/2500000000000000:ℝ)^2 := pow_le_pow_left₀ (Real.exp_pos _).le hT 2
  rw [harg, hsq]
  nlinarith [hp]

lemma pws_x2lo_lo : (118774046809/5000000000 : ℝ) ≤ SystemPerf.calculateSaturationPressure (13703372245127/200000000000 : ℝ) := by
  have harg : SystemPerf.calculateSaturationPressure (13703372245127/200000000000:ℝ) = 611/100 * Real.exp (147110783794701/108340311137288:ℝ) := by
    simp only [SystemPerf.calculateSaturationPressure]
    norm_num
  have hsq : Real.exp (147110783794701/108340311137288:ℝ) = Real.exp (147110783794701/216680622274576:ℝ)^2 := by
    rw [show (147110783794701/108340311137288:ℝ) = (2:ℕ) * (147110783794701/216680622274576:ℝ) by norm_num, Real.exp_nat_mul]
  have hT : (19717650737405449/10000000000000000:ℝ) ≤ Real.exp (147110783794701/216680622274576:ℝ) := by
    refine le_trans ?_ (Real.sum_le_exp_of_nonneg (by norm_num) 14)
    simp only [Finset.sum_range_succ, Finset.sum_range_zero]
    norm_num [Nat.factorial]
  have hp : (19717650737405449/10000000000000000:ℝ)^2 ≤ Real.exp (147110783794701/216680622274576:ℝ)^2 := pow_le_pow_left₀ (by norm_num) hT 2
  rw [harg, hsq]
  nlinarith [hp]

lemma pws_x2hi_hi : SystemPerf.calculateSaturationPressure (68516861225757/1000000000000 : ℝ) ≤ (11877404680951/500000000000 : ℝ) := by
  have harg : SystemPerf.calculateSaturationPressure (68516861225757/1000000000000:ℝ) = 611/100 * Real.exp (166092820413927/122319706122776:ℝ) := by
    simp only [SystemPerf.calculateSaturationPressure]
    norm_num
  have hsq : Real.exp (166092820413927/122319706122776:ℝ) = Real.exp (166092820413927/244639412245552:ℝ)^2 := by
    rw [show (166092820413927/122319706122776:ℝ) = (2:ℕ) * (166092820413927/244639412245552:ℝ) by norm_num, Real.exp_nat_mul]
  have hT : Real.exp (166092820413927/244639412245552:ℝ) ≤ (2464706342180909/1250000000000000:ℝ) := by
    refine le_trans (@Real.exp_bound' (166092820413927/244639412245552:ℝ) (by norm_num) (by norm_num) 14 (by norm_num)) ?_
    simp only [Finset.sum_range_succ, Finset.sum_range_zero]
    norm_num [Nat.factorial]
  have hp : Real.exp (166092820413927/244639412245552:ℝ)^2 ≤ (2464706342180909/1250000000000000:ℝ)^2 := pow_le_pow_left₀ (Real.exp_pos _).le hT 2
  rw [harg, hsq]
  nlinarith [hp]

lemma pws_x3lo_lo : (23753888343357/1000000000000 : ℝ) ≤ SystemPerf.calculateSaturationPressure (68515731479027/1000000000000 : ℝ) := by
  have harg : SystemPerf.calculateSaturationPressure (68515731479027/1000000000000:ℝ) = 611/100 * Real.exp (1716239379514269/1263967283944072:ℝ) := by
    simp only [SystemPerf.calculateSaturationPressure]
    norm_num
  have hsq : Real.exp (1716239379514269/1263967283944072:ℝ) = Real.exp (1716239379514269/2527934567888144:ℝ)^2 := by
    rw [show (1716239379514269/1263967283944072:ℝ) = (2:ℕ) * (1716239379514269/2527934567888144:ℝ) by norm_num, Real.exp_nat_mul]
  have hT : (19717268488578723/10000000000000000:ℝ) ≤ Real.exp (1716239379514269/2527934567888144:ℝ) := by
    refine le_trans ?_ (Real.sum_le_exp_of_nonneg (by norm_num) 14)
    simp only [Finset.sum_range_succ, Finset.sum_range_zero]
    norm_num [Nat.factorial]
  have hp : (19717268488578723/10000000000000000:ℝ)^2 ≤ Real.exp (1716239379514269/2527934567888144:ℝ)^2 := pow_le_pow_left₀ (by norm_num) hT 2
  rw [harg, hsq]
  nlinarith [hp]

lemma pws_x3hi_hi : SystemPerf.calculateSaturationPressure (13703146295861/200000000000 : ℝ) ≤ (11876944171793/500000000000 : ℝ) := by
  have harg : SystemPerf.calculateSaturationPressure (13703146295861/200000000000:ℝ) = 611/100 * Real.exp (1029743627716401/758380370366888:ℝ) := by
    simp only [SystemPerf.calculateSaturationPressure]
    norm_num
  have hsq : Real.exp (1029743627716401/758380370366888:ℝ) = Real.exp (1029743627716401/1516760740733776:ℝ)^2 := by
    rw [show (1029743627716401/758380370366888:ℝ) = (2:ℕ) * (1029743627716401/1516760740733776:ℝ) by norm_num, Real.exp_nat_mul]
  have hT : Real.exp (1029743627716401/1516760740733776:ℝ) ≤ (1232329280542083/625000000000000:ℝ) := by
    refine le_trans (@Real.exp_bound' (1029743627716401/1516760740733776:ℝ) (by norm_num) (by norm_num) 14 (by norm_num)) ?_
    simp only [Finset.sum_range_succ, Finset.sum_range_zero]
    norm_num [Nat.factorial]
  have hp : Real.exp (1029743627716401/1516760740733776:ℝ)^2 ≤ (1232329280542083/625000000000000:ℝ)^2 := pow_le_pow_left₀ (Real.exp_pos _).le hT 2
  rw [harg, hsq]
  nlinarith [hp]

lemma pws_x4lo_lo : (11876945394829/500000000000 : ℝ) ≤ SystemPerf.calculateSaturationPressure (34257867239889/500000000000 : ℝ) := by
  have harg : SystemPerf.calculateSaturationPressure (34257867239889/500000000000:ℝ) = 611/100 * Real.exp (2574359280824349/1895950937919112:ℝ) := by
    simp only [SystemPerf.calculateSaturationPressure]
    norm_num
  have hsq : Real.exp (2574359280824349/1895950937919112:ℝ) = Real.exp (2574359280824349/3791901875838224:ℝ)^2 := by
    rw [show (2574359280824349/1895950937919112:ℝ) = (2:ℕ) * (2574359280824349/3791901875838224:ℝ) by norm_num, Real.exp_nat_mul]
  have hT : (19717269503872931/10000000000000000:ℝ) ≤ Real.exp (2574359280824349/3791901875838224:ℝ) := by
    refine le_trans ?_ (Real.sum_le_exp_of_nonneg (by norm_num) 14)
    simp only [Finset.sum_range_succ, Finset.sum_range_zero]
    norm_num [Nat.factorial]
  have hp : (19717269503872931/10000000000000000:ℝ)^2 ≤ Real.exp (2574359280824349/3791901875838224:ℝ)^2 := pow_le_pow_left₀ (by norm_num) hT 2
  rw [harg, hsq]
  nlinarith [hp]

lemma pws_x4hi_hi : SystemPerf.calculateSaturationPressure (13703146896073/200000000000 : ℝ) ≤ (23753890790139/1000000000000 : ℝ) := by
  have harg : SystemPerf.calculateSaturationPressure (13703146896073/200000000000:ℝ) = 611/100 * Real.exp (49035414873633/36113351198504:ℝ) := by
    simp only [SystemPerf.calculateSaturationPressure]
    norm_num
  have hsq : Real.exp (49035414873633/36113351198504:ℝ) = Real.exp (49035414873633/72226702397008:ℝ)^2 := by
    rw [show (49035414873633/36113351198504:ℝ) = (2:ℕ) * (49035414873633/72226702397008:ℝ) by norm_num, Real.exp_nat_mul]
  have hT : Real.exp (49035414873633/72226702397008:ℝ) ≤ (4929317376018021/2500000000000000:ℝ) := by
    refine le_trans (@Real.exp_bound' (49035414873633/72226702397008:ℝ) (by norm_num) (by norm_num) 14 (by norm_num)) ?_
    simp only [Finset.sum_range_succ, Finset.sum_range_zero]
    norm_num [Nat.factorial]
  have hp : Real.exp (49035414873633/72226702397008:ℝ)^2 ≤ (4929317376018021/2500000000000000:ℝ)^2 := pow_le_pow_left₀ (Real.exp_pos _).le hT 2
  rw [harg, hsq]
  nlinarith [hp]

/-! ## Claim C5 -/

lemma hr100_eq (t : ℝ) :
    SystemPerf.calculateHumidityRatio t 100 = wsatP (SystemPerf.calculateSaturationPressure t) := by
  rw [calculateHumidityRatio_eq_wsatP]
  norm_num

/-- C5, counterexample: the humidity-ratio denominator `14.696 − pws(T)`
changes sign near 55 °F (the saturation pressure is on a kPa scale but is
compared against psia), so `humidityRatio(50, 100) > 0 >
humidityRatio(70, 100)` even though `50 < 70` — monotonicity fails. -/
theorem c5_counterexample : ¬ claimC5 := by
  intro h
  have h5070 := h 50 70 (by norm_num)
  have h50pos : 0 < SystemPerf.calculateHumidityRatio 50 100 := by
    rw [hr100_eq]
    exact wsatP_pos_of_lt (pws_pos 50) (lt_of_le_of_lt pws_t50_hi (by norm_num))
  have h70neg : SystemPerf.calculateHumidityRatio 70 100 ≤ -(622/1000) := by
    rw [hr100_eq]
    exact wsatP_neg_of_gt (lt_of_lt_of_le (by norm_num) pws_t70_lo)
  linarith

/-- C5, amended: `humidityRatio(·, 100)` is strictly increasing only below
the singular temperature where `pws` crosses `14.696` (≈ 55 °F): for
`−405.472 < T1 < T2` with `pws(T2) < 14.696` the ratio strictly increases. -/
theorem c5_monotone_below_saturation :
    ∀ t1 t2 : ℝ, -405472/1000 < t1 → t1 < t2 →
      SystemPerf.calculateSaturationPressure t2 < 14696/1000 →
      SystemPerf.calculateHumidityRatio t1 100 < SystemPerf.calculateHumidityRatio t2 100 := by
  intro t1 t2 h1 h12 h2
  rw [hr100_eq, hr100_eq]
  exact wsatP_strictMono_lt (pws_strictMono h1 h12) h2

/-- C5, witness: the amended monotonicity at `T1 = 40`, `T2 = 50`, with the
saturation-pressure hypothesis discharged by the certified bound. -/
theorem c5_witness :
    SystemPerf.calculateHumidityRatio 40 100 < SystemPerf.calculateHumidityRatio 50 100 :=
  c5_monotone_below_saturation 40 50 (by norm_num) (by norm_num)
    (lt_of_le_of_lt pws_t50_hi (by norm_num))

/-! ## Claim C1: the System Performance Calculator loop at `(70, 50)` -/

lemma w50_lo : (1412913077/400000000 : ℝ) ≤ SystemPerf.wbW 70 50 := by
  rw [SystemPerf.wbW, calculateHumidityRatio_eq_wsatP]
  have hplo : (12495641315627/1000000000000 : ℝ) ≤ 50/100 * SystemPerf.calculateSaturationPressure 70 := by
    have := pws_t70_lo
    linarith
  have hub : (50:ℝ)/100 * SystemPerf.calculateSaturationPressure 70 < 14696/1000 := by
    have := pws_t70_hi
    linarith
  refine le_trans ?_ (wsatP_mono_lt hplo hub)
  rw [wsatP]
  norm_num

lemma w50_hi : SystemPerf.wbW 70 50 ≤ (35322826927/10000000000 : ℝ) := by
  rw [SystemPerf.wbW, calculateHumidityRatio_eq_wsatP]
  have hphi : (50:ℝ)/100 * SystemPerf.calculateSaturationPressure 70 ≤
      24991282631257/2000000000000 := by
    have := pws_t70_hi
    linarith
  have hub : (24991282631257/2000000000000 : ℝ) < 14696/1000 := by norm_num
  refine le_trans (wsatP_mono_lt hphi hub) ?_
  rw [wsatP]
  norm_num

lemma E50_lower : ∀ x : ℝ, 70 ≤ x →
    461063/100 - x ≤ SystemPerf.wbError 70 (SystemPerf.wbW 70 50) x := by
  intro x hx
  rw [wbError_eq_wsatP]
  have hpx : SystemPerf.calculateSaturationPressure 70 ≤ SystemPerf.calculateSaturationPressure x :=
    pws_mono (by norm_num) hx
  have hpA : (14696:ℝ)/1000 < SystemPerf.calculateSaturationPressure x := by
    have := pws_t70_lo
    linarith
  have hws := wsatP_neg_of_gt hpA
  have hw := w50_lo
  linarith

lemma E50_upper : ∀ x : ℝ, 70 ≤ x →
    SystemPerf.wbError 70 (SystemPerf.wbW 70 50) x ≤ 55811/10 - x := by
  intro x hx
  rw [wbError_eq_wsatP]
  have hpx : SystemPerf.calculateSaturationPressure 70 ≤ SystemPerf.calculateSaturationPressure x :=
    pws_mono (by norm_num) hx
  have hA70 : (14696:ℝ)/1000 < 12495641315627/500000000000 := by norm_num
  have hws1 : wsatP (12495641315627/500000000000) ≤
      wsatP (SystemPerf.calculateSaturationPressure x) := by
    refine wsatP_mono_gt hA70 ?_
    have := pws_t70_lo
    linarith
  have hws2 : (-15098738280/10000000000 : ℝ) ≤ wsatP (12495641315627/500000000000) := by
    rw [wsatP]
    norm_num
  have hw := w50_hi
  linarith

lemma seq50_ge : ∀ n : ℕ, 70 ≤ SystemPerf.wbSeq 70 50 n := by
  intro n
  induction n with
  | zero => norm_num [SystemPerf.wbSeq]
  | succ n ih =>
    have hE := E50_lower (SystemPerf.wbSeq 70 50 n) ih
    show (70:ℝ) ≤ SystemPerf.wbSeq 70 50 n +
      SystemPerf.wbError 70 (SystemPerf.wbW 70 50) (SystemPerf.wbSeq 70 50 n) / 100
    linarith

lemma seq50_le : ∀ n : ℕ,
    SystemPerf.wbSeq 70 50 n ≤ 55811/10 - 55111/10 * (99/100 : ℝ)^n := by
  intro n
  induction n with
  | zero => norm_num [SystemPerf.wbSeq]
  | succ n ih =>
    have hge := seq50_ge n
    have hE := E50_upper (SystemPerf.wbSeq 70 50 n) hge
    have hq : (0:ℝ) ≤ (99/100 : ℝ)^n := by positivity
    show SystemPerf.wbSeq 70 50 n +
        SystemPerf.wbError 70 (SystemPerf.wbW 70 50) (SystemPerf.wbSeq 70 50 n) / 100 ≤
      55811/10 - 55111/10 * (99/100 : ℝ)^(n+1)
    rw [pow_succ]
    linarith

/-- C1: at `db = 70 °F`, `rh = 50 %` the uncapped `calculateWetBulb` loop of
the System Performance Calculator is still far from converged at every one of
its first 101 error checks (`|error| > 0.01` for all `m ≤ 100`), so the loop
runs beyond 100 iterations — the 100-iteration cap of the claim does not
exist in this variant. -/
theorem c1_uncapped_beyond_100 : ∀ m : ℕ, m ≤ 100 →
    1/100 < |SystemPerf.wbError 70 (SystemPerf.wbW 70 50) (SystemPerf.wbSeq 70 50 m)| := by
  intro m hm
  have hle := seq50_le m
  have hge := seq50_ge m
  have hpow : (99/100 : ℝ)^100 ≤ (99/100 : ℝ)^m :=
    pow_le_pow_of_le_one (by norm_num) (by norm_num) hm
  have hnum : (20172/10 : ℝ) ≤ 55111/10 * (99/100 : ℝ)^100 := by
    norm_num
  have hE := E50_lower (SystemPerf.wbSeq 70 50 m) hge
  have hEbig : (1000:ℝ) ≤ SystemPerf.wbError 70 (SystemPerf.wbW 70 50) (SystemPerf.wbSeq 70 50 m) := by
    nlinarith
  calc (1:ℝ)/100 < 1000 := by norm_num
    _ ≤ SystemPerf.wbError 70 (SystemPerf.wbW 70 50) (SystemPerf.wbSeq 70 50 m) := hEbig
    _ ≤ |SystemPerf.wbError 70 (SystemPerf.wbW 70 50) (SystemPerf.wbSeq 70 50 m)| := le_abs_self _

/-- C1, witness: the uncapped-loop bound instantiated at the third iterate. -/
theorem c1_witness : (3:ℕ) ≤ 100 ∧
    1/100 < |SystemPerf.wbError 70 (SystemPerf.wbW 70 50) (SystemPerf.wbSeq 70 50 3)| :=
  ⟨by norm_num, c1_uncapped_beyond_100 3 (by norm_num)⟩

/-- Any terminating run of the uncapped loop at `(70, 50)` returns a wet-bulb
far above the dry-bulb: the loop cannot exit until the iterate exceeds 4610. -/
lemma wbRun_5070_gt_70 : ∀ r, SystemPerf.WetBulbResult 70 50 r → 70 < r := by
  rintro r ⟨N, -, hexit, rfl⟩
  have hge := seq50_ge N
  have hE := E50_lower (SystemPerf.wbSeq 70 50 N) hge
  obtain ⟨hlo, hhi⟩ := abs_le.mp hexit
  show (70:ℝ) < SystemPerf.wbSeq 70 50 N +
    SystemPerf.wbError 70 (SystemPerf.wbW 70 50) (SystemPerf.wbSeq 70 50 N) / 100
  linarith

/-! ## The part_001 capped loop: bounded termination, last estimate returned -/

lemma p1_go_exit (db w : ℝ) (fuel : ℕ) (wb err : ℝ) (h : |err| ≤ 1/100) :
    P1.calculateWetBulbGo db w fuel wb err = wb := by
  cases fuel with
  | zero => rfl
  | succ n => rw [P1.calculateWetBulbGo, if_pos h]

lemma p1_iterFrom_shift (db w x : ℝ) :
    ∀ j : ℕ, P1.iterFrom db w (x + P1.wbError db w x / 100) j = P1.iterFrom db w x (j + 1) := by
  intro j
  induction j with
  | zero => rfl
  | succ j ihj =>
    show P1.iterFrom db w (x + P1.wbError db w x / 100) j +
        P1.wbError db w (P1.iterFrom db w (x + P1.wbError db w x / 100) j) / 100 =
      P1.iterFrom db w x (j + 1) + P1.wbError db w (P1.iterFrom db w x (j + 1)) / 100
    rw [ihj]

lemma p1_wbSeq_eq_iterFrom (db w : ℝ) : ∀ n : ℕ, P1.wbSeq db w n = P1.iterFrom db w db n := by
  intro n
  induction n with
  | zero => rfl
  | succ n ih =>
    show P1.wbSeq db w n + P1.wbError db w (P1.wbSeq db w n) / 100 =
      P1.iterFrom db w db n + P1.wbError db w (P1.iterFrom db w db n) / 100
    rw [ih]

lemma p1_go_spec (db w : ℝ) : ∀ (fuel : ℕ) (x err : ℝ), 1/100 < |err| →
    ∃ k, k ≤ fuel ∧ P1.calculateWetBulbGo db w fuel x err = P1.iterFrom db w x k ∧
      (∀ m : ℕ, m + 1 < k → 1/100 < |P1.wbError db w (P1.iterFrom db w x m)|) ∧
      (k < fuel → 1 ≤ k ∧ |P1.wbError db w (P1.iterFrom db w x (k - 1))| ≤ 1/100) := by
  intro fuel
  induction fuel with
  | zero =>
    intro x err _
    exact ⟨0, le_refl 0, rfl, fun m hm => absurd hm (by omega), fun h => absurd h (by omega)⟩
  | succ n ih =>
    intro x err herr
    rw [P1.calculateWetBulbGo, if_neg (not_le.mpr herr)]
    by_cases hE : 1/100 < |P1.wbError db w x|
    · obtain ⟨k, hk, heq, hprev, hexit⟩ := ih (x + P1.wbError db w x / 100) (P1.wbError db w x) hE
      refine ⟨k + 1, by omega, ?_, ?_, ?_⟩
      · rw [heq, p1_iterFrom_shift]
      · intro m hm
        cases m with
        | zero => exact hE
        | succ m =>
          have h2 := hprev m (by omega)
          rw [p1_iterFrom_shift] at h2
          exact h2
      · intro hk1
        refine ⟨by omega, ?_⟩
        rcases Nat.eq_zero_or_pos k with rfl | hkpos
        · exact absurd (hexit (by omega)).1 (by omega)
        · have h2 := (hexit (by omega)).2
          rw [p1_iterFrom_shift] at h2
          have hk2 : k - 1 + 1 = k := by omega
          rw [hk2] at h2
          have hk3 : k + 1 - 1 = k := by omega
          rw [hk3]
          exact h2
    · push_neg at hE
      rw [p1_go_exit db w n _ _ hE]
      exact ⟨1, by omega, rfl, fun m hm => absurd hm (by omega), fun _ => ⟨le_refl 1, hE⟩⟩

/-- The part_001 `calculateWetBulb` behaves exactly as the claim describes the
solver: it returns the `k`-th iterate for some `k ≤ 100`; every earlier check
saw `|error| > 0.01`; and when it stops before the cap it is because the last
computed error satisfied `|error| ≤ 0.01`.  In particular it terminates for
every input and returns the last estimate at the cap. -/
lemma p1_calculateWetBulb_spec (db rh : ℝ) :
    ∃ k, k ≤ 100 ∧
      P1.calculateWetBulb db rh = P1.wbSeq db (P1.calculateHumidityRatio db rh) k ∧
      (∀ m : ℕ, m + 1 < k →
        1/100 < |P1.wbError db (P1.calculateHumidityRatio db rh)
          (P1.wbSeq db (P1.calculateHumidityRatio db rh) m)|) ∧
      (k < 100 → 1 ≤ k ∧
        |P1.wbError db (P1.calculateHumidityRatio db rh)
          (P1.wbSeq db (P1.calculateHumidityRatio db rh) (k - 1))| ≤ 1/100) := by
  obtain ⟨k, hk, heq, hprev, hexit⟩ :=
    p1_go_spec db (P1.calculateHumidityRatio db rh) 100 db 1 (by norm_num)
  refine ⟨k, hk, ?_, ?_, ?_⟩
  · rw [P1.calculateWetBulb, heq, p1_wbSeq_eq_iterFrom]
  · intro m hm
    rw [p1_wbSeq_eq_iterFrom]
    exact hprev m hm
  · intro hcap
    rw [p1_wbSeq_eq_iterFrom]
    exact hexit hcap

/-! ## Claim C4 -/

/-- C4, amended: for `0 < RH ≤ 100` and dry-bulb above the Magnus pole at
`−405.472 °F`, the dew point is finite and at most the dry-bulb.  (At
`RH = 0` the formula takes `Math.log 0` and the dew point is non-finite, and
the wet-bulb bracketing fails separately: see `wbRun_5070_gt_70`.) -/
theorem c4_dewpoint_le_drybulb :
    ∀ db rh : ℝ, 0 < rh → rh ≤ 100 → -405472/1000 < db →
      ∃ d, SystemPerf.calculateDewPoint db rh = some d ∧ d ≤ db := by
  intro db rh h0 h100 hdb
  have hpos : (0:ℝ) < rh/100 := by linarith
  rw [SystemPerf.calculateDewPoint, SystemPerf.jsLog, if_pos hpos]
  refine ⟨_, rfl, ?_⟩
  show (24304/100 * (Real.log (rh/100) + 17625/1000 * ((db - 32) * 5 / 9) /
      (24304/100 + (db - 32) * 5 / 9))) /
    (17625/1000 - (Real.log (rh/100) + 17625/1000 * ((db - 32) * 5 / 9) /
      (24304/100 + (db - 32) * 5 / 9))) * 9 / 5 + 32 ≤ db
  set c : ℝ := (db - 32) * 5 / 9 with hc
  set l : ℝ := Real.log (rh / 100) with hl
  have hD : (0:ℝ) < 24304/100 + c := by
    rw [hc]
    linarith
  have hlog : l ≤ 0 := Real.log_nonpos (by linarith) (by linarith)
  have hg : 17625/1000 * c / (24304/100 + c) < 17625/1000 := by
    rw [div_lt_iff₀ hD]
    nlinarith
  have hden : 0 < 17625/1000 - (l + 17625/1000 * c / (24304/100 + c)) := by linarith
  have hgD : 17625/1000 * c / (24304/100 + c) * (24304/100 + c) = 17625/1000 * c :=
    div_mul_cancel₀ _ (ne_of_gt hD)
  have hlD : l * (24304/100 + c) ≤ 0 := mul_nonpos_of_nonpos_of_nonneg hlog hD.le
  have hkey : (24304/100 * (l + 17625/1000 * c / (24304/100 + c))) /
      (17625/1000 - (l + 17625/1000 * c / (24304/100 + c))) ≤ c := by
    rw [div_le_iff₀ hden]
    nlinarith
  have hfin : c * 9 / 5 = db - 32 := by
    rw [hc]
    ring
  nlinarith [hkey, hden]

/-- C4, counterexample: the claim includes `RH = 0`, but there the dew-point
formula computes `Math.log 0` and produces a non-finite value, so
`dewPoint(95, 0) ≤ 95` fails (NaN comparisons are false in JS). -/
theorem c4_counterexample : ¬ claimC4 := by
  intro h
  obtain ⟨d, hd, -⟩ := (h 95 0 le_rfl (by norm_num)).1
  rw [SystemPerf.calculateDewPoint, SystemPerf.jsLog] at hd
  norm_num at hd
  exact Option.noConfusion hd

/-- C4, witness: the amended dew-point bound at `T = 70 °F`, `RH = 50 %`. -/
theorem c4_witness : ∃ d, SystemPerf.calculateDewPoint 70 50 = some d ∧ d ≤ 70 :=
  c4_dewpoint_le_drybulb 70 50 (by norm_num) (by norm_num) (by norm_num)

/-! ## Claim C6: a certified four-iteration run of the uncapped loop at
`(70, 95)` -/

lemma w95_lo : (-163252359747/100000000000 : ℝ) ≤ SystemPerf.wbW 70 95 := by
  rw [SystemPerf.wbW, calculateHumidityRatio_eq_wsatP]
  have hplo : (237417184996913/10000000000000 : ℝ) ≤ 95/100 * SystemPerf.calculateSaturationPressure 70 := by
    have := pws_t70_lo
    linarith
  have hA : (14696:ℝ)/1000 < 237417184996913/10000000000000 := by norm_num
  refine le_trans ?_ (wsatP_mono_gt hA hplo)
  rw [wsatP]
  norm_num

lemma w95_hi : SystemPerf.wbW 70 95 ≤ (-408130899367/250000000000 : ℝ) := by
  rw [SystemPerf.wbW, calculateHumidityRatio_eq_wsatP]
  have hphi : (95:ℝ)/100 * SystemPerf.calculateSaturationPressure 70 ≤ 474834369993883/20000000000000 := by
    have := pws_t70_hi
    linarith
  have hA : (14696:ℝ)/1000 < 95/100 * SystemPerf.calculateSaturationPressure 70 := by
    have := pws_t70_lo
    linarith
  refine le_trans (wsatP_mono_gt hA hphi) ?_
  rw [wsatP]
  norm_num

lemma E95_bounds (w x l u plo phi wlo whi : ℝ) (hl : l ≤ x) (hu : x ≤ u)
    (hwl : wlo ≤ w) (hwh : w ≤ whi) (hlow : (-405472/1000 : ℝ) < l)
    (hA : (14696:ℝ)/1000 < plo)
    (hpl : plo ≤ SystemPerf.calculateSaturationPressure l)
    (hpu : SystemPerf.calculateSaturationPressure u ≤ phi) :
    (70 - u) - (wsatP phi - wlo) * 1093 ≤ SystemPerf.wbError 70 w x ∧
      SystemPerf.wbError 70 w x ≤ (70 - l) - (wsatP plo - whi) * 1093 := by
  rw [wbError_eq_wsatP]
  have hp1 : SystemPerf.calculateSaturationPressure l ≤
      SystemPerf.calculateSaturationPressure x := pws_mono hlow hl
  have hp2 : SystemPerf.calculateSaturationPressure x ≤
      SystemPerf.calculateSaturationPressure u := pws_mono (by linarith) hu
  have hws1 : wsatP plo ≤ wsatP (SystemPerf.calculateSaturationPressure x) :=
    wsatP_mono_gt hA (by linarith)
  have hws2 : wsatP (SystemPerf.calculateSaturationPressure x) ≤ wsatP phi :=
    wsatP_mono_gt (by linarith) (by linarith)
  constructor <;> linarith

lemma seq95_0 : (70:ℝ) ≤ SystemPerf.wbSeq 70 95 0 ∧ SystemPerf.wbSeq 70 95 0 ≤ 70 := by
  norm_num [SystemPerf.wbSeq]


lemma E95_m0 :
    (-67028099024099/500000000000 : ℝ) ≤ SystemPerf.wbError 70 (SystemPerf.wbW 70 95) (SystemPerf.wbSeq 70 95 0) ∧
      SystemPerf.wbError 70 (SystemPerf.wbW 70 95) (SystemPerf.wbSeq 70 95 0) ≤ (-67028099021913/500000000000 : ℝ) := by
  obtain ⟨h1, h2⟩ := E95_bounds (SystemPerf.wbW 70 95) (SystemPerf.wbSeq 70 95 0)
    (70) (70) (12495641315627/500000000000) (24991282631257/1000000000000) (-163252359747/100000000000) (-408130899367/250000000000)
    seq95_0.1 seq95_0.2 w95_lo w95_hi (by norm_num) (by norm_num) pws_t70_lo pws_t70_hi
  constructor
  · refine le_trans ?_ h1
    rw [wsatP]
    norm_num
  · refine le_trans h2 ?_
    rw [wsatP]
    norm_num

lemma seq95_1 : (34329719009759/500000000000 : ℝ) ≤ SystemPerf.wbSeq 70 95 1 ∧
    SystemPerf.wbSeq 70 95 1 ≤ (34329719009781/500000000000 : ℝ) := by
  have hstep : SystemPerf.wbSeq 70 95 1 = SystemPerf.wbSeq 70 95 0 +
      SystemPerf.wbError 70 (SystemPerf.wbW 70 95) (SystemPerf.wbSeq 70 95 0) / 100 := rfl
  obtain ⟨h1, h2⟩ := E95_m0
  obtain ⟨h3, h4⟩ := seq95_0
  rw [hstep]
  constructor <;> linarith

lemma E95_m1 :
    (-7128839694117/500000000000 : ℝ) ≤ SystemPerf.wbError 70 (SystemPerf.wbW 70 95) (SystemPerf.wbSeq 70 95 1) ∧
      SystemPerf.wbError 70 (SystemPerf.wbW 70 95) (SystemPerf.wbSeq 70 95 1) ≤ (-14257679380539/1000000000000 : ℝ) := by
  obtain ⟨h1, h2⟩ := E95_bounds (SystemPerf.wbW 70 95) (SystemPerf.wbSeq 70 95 1)
    (34329719009759/500000000000) (34329719009781/500000000000) (745977995279/31250000000) (23871295848967/1000000000000) (-163252359747/100000000000) (-408130899367/250000000000)
    seq95_1.1 seq95_1.2 w95_lo w95_hi (by norm_num) (by norm_num) pws_x1lo_lo pws_x1hi_hi
  constructor
  · refine le_trans ?_ h1
    rw [wsatP]
    norm_num
  · refine le_trans h2 ?_
    rw [wsatP]
    norm_num

lemma seq95_2 : (13703372245127/200000000000 : ℝ) ≤ SystemPerf.wbSeq 70 95 2 ∧
    SystemPerf.wbSeq 70 95 2 ≤ (68516861225757/1000000000000 : ℝ) := by
  have hstep : SystemPerf.wbSeq 70 95 2 = SystemPerf.wbSeq 70 95 1 +
      SystemPerf.wbError 70 (SystemPerf.wbW 70 95) (SystemPerf.wbSeq 70 95 1) / 100 := rfl
  obtain ⟨h1, h2⟩ := E95_m1
  obtain ⟨h3, h4⟩ := seq95_1
  rw [hstep]
  constructor <;> linarith

lemma E95_m2 :
    (-112974660709/1000000000000 : ℝ) ≤ SystemPerf.wbError 70 (SystemPerf.wbW 70 95) (SystemPerf.wbSeq 70 95 2) ∧
      SystemPerf.wbError 70 (SystemPerf.wbW 70 95) (SystemPerf.wbSeq 70 95 2) ≤ (-22594929057/200000000000 : ℝ) := by
  obtain ⟨h1, h2⟩ := E95_bounds (SystemPerf.wbW 70 95) (SystemPerf.wbSeq 70 95 2)
    (13703372245127/200000000000) (68516861225757/1000000000000) (118774046809/5000000000) (11877404680951/500000000000) (-163252359747/100000000000) (-408130899367/250000000000)
    seq95_2.1 seq95_2.2 w95_lo w95_hi (by norm_num) (by norm_num) pws_x2lo_lo pws_x2hi_hi
  constructor
  · refine le_trans ?_ h1
    rw [wsatP]
    norm_num
  · refine le_trans h2 ?_
    rw [wsatP]
    norm_num

lemma seq95_3 : (68515731479027/1000000000000 : ℝ) ≤ SystemPerf.wbSeq 70 95 3 ∧
    SystemPerf.wbSeq 70 95 3 ≤ (13703146295861/200000000000 : ℝ) := by
  have hstep : SystemPerf.wbSeq 70 95 3 = SystemPerf.wbSeq 70 95 2 +
      SystemPerf.wbError 70 (SystemPerf.wbW 70 95) (SystemPerf.wbSeq 70 95 2) / 100 := rfl
  obtain ⟨h1, h2⟩ := E95_m2
  obtain ⟨h3, h4⟩ := seq95_2
  rw [hstep]
  constructor <;> linarith

lemma E95_m3 :
    (300075117/1000000000000 : ℝ) ≤ SystemPerf.wbError 70 (SystemPerf.wbW 70 95) (SystemPerf.wbSeq 70 95 3) ∧
      SystemPerf.wbError 70 (SystemPerf.wbW 70 95) (SystemPerf.wbSeq 70 95 3) ≤ (300105999/1000000000000 : ℝ) := by
  obtain ⟨h1, h2⟩ := E95_bounds (SystemPerf.wbW 70 95) (SystemPerf.wbSeq 70 95 3)
    (68515731479027/1000000000000) (13703146295861/200000000000) (23753888343357/1000000000000) (11876944171793/500000000000) (-163252359747/100000000000) (-408130899367/250000000000)
    seq95_3.1 seq95_3.2 w95_lo w95_hi (by norm_num) (by norm_num) pws_x3lo_lo pws_x3hi_hi
  constructor
  · refine le_trans ?_ h1
    rw [wsatP]
    norm_num
  · refine le_trans h2 ?_
    rw [wsatP]
    norm_num

lemma seq95_4 : (34257867239889/500000000000 : ℝ) ≤ SystemPerf.wbSeq 70 95 4 ∧
    SystemPerf.wbSeq 70 95 4 ≤ (13703146896073/200000000000 : ℝ) := by
  have hstep : SystemPerf.wbSeq 70 95 4 = SystemPerf.wbSeq 70 95 3 +
      SystemPerf.wbError 70 (SystemPerf.wbW 70 95) (SystemPerf.wbSeq 70 95 3) / 100 := rfl
  obtain ⟨h1, h2⟩ := E95_m3
  obtain ⟨h3, h4⟩ := seq95_3
  rw [hstep]
  constructor <;> linarith

/-- The uncapped loop at `(70, 95)` terminates after exactly four iterations
(first three errors exceed 0.01 in magnitude, the fourth is ≈ 0.0003) and
returns the fourth iterate. -/
lemma wbRun_7095 : SystemPerf.WetBulbResult 70 95 (SystemPerf.wbSeq 70 95 4) := by
  refine ⟨3, ?_, ?_, rfl⟩
  · intro m hm
    interval_cases m
    · have h := E95_m0
      rw [abs_of_neg (by linarith [h.2])]
      linarith [h.2]
    · have h := E95_m1
      rw [abs_of_neg (by linarith [h.2])]
      linarith [h.2]
    · have h := E95_m2
      rw [abs_of_neg (by linarith [h.2])]
      linarith [h.2]
  · have h := E95_m3
    rw [abs_le]
    constructor <;> linarith [h.1, h.2]

set_option maxHeartbeats 1600000 in
/-- Bounds on the recovered relative humidity for any value in the certified
final-iterate interval: the round trip gives ≈ 42.45 %, nowhere near 95 %. -/
lemma rhout_7095 : ∀ r : ℝ, (34257867239889/500000000000 : ℝ) ≤ r →
    r ≤ (13703146896073/200000000000 : ℝ) →
    42 ≤ SystemPerf.calculateRHFromWetBulb 70 r ∧
      SystemPerf.calculateRHFromWetBulb 70 r ≤ 43 := by
  intro r hrl hru
  have hprl : (11876945394829/500000000000 : ℝ) ≤ SystemPerf.calculateSaturationPressure r :=
    le_trans pws_x4lo_lo (pws_mono (by norm_num) hrl)
  have hpru : SystemPerf.calculateSaturationPressure r ≤ (23753890790139/1000000000000 : ℝ) :=
    le_trans (pws_mono (by linarith) hru) pws_x4hi_hi
  have hp70l := pws_t70_lo
  have hp70u := pws_t70_hi
  rw [SystemPerf.calculateRHFromWetBulb, SystemPerf.ATMOSPHERIC_PRESSURE]
  set pr := SystemPerf.calculateSaturationPressure r with hpr
  set p70 := SystemPerf.calculateSaturationPressure 70 with hp70
  set N : ℝ := (1093 - 556/1000 * r) * pr - 24/100 * (70 - r) * (14696/1000) with hN
  set D : ℝ := (1093 + 444/1000 * 70 - r) * (14696/1000) with hD
  show 42 ≤ N / D * (14696/1000) / (622/1000 + N / D) / p70 * 100 ∧
    N / D * (14696/1000) / (622/1000 + N / D) / p70 * 100 ≤ 43
  have hDlo : (387814311151913899/25000000000000 : ℝ) ≤ D := by
    rw [hD]
    linarith
  have hDhi : D ≤ (969535777880323907/62500000000000 : ℝ) := by
    rw [hD]
    linarith
  have hDpos : (0:ℝ) < D := by linarith
  have ha1 : (52745262581445853/50000000000000 : ℝ) ≤ 1093 - 556/1000 * r := by linarith
  have ha2 : (1093 - 556/1000 * r : ℝ) ≤ 131863156453655429/125000000000000 := by linarith
  have hN1lo : (626452603515749696328769694137/25000000000000000000000000 : ℝ) ≤
      (1093 - 556/1000 * r) * pr := by
    have := mul_le_mul ha1 hprl (by norm_num) (by linarith)
    linarith
  have hN1hi : (1093 - 556/1000 * r) * pr ≤
      (3132263017643143735503657014631/125000000000000000000000000 : ℝ) := by
    have := mul_le_mul ha2 hpru (by linarith [hprl]) (by norm_num)
    linarith
  have hNlo : (626321726919238601256769694137/25000000000000000000000000 : ℝ) ≤ N := by
    rw [hN]
    linarith
  have hNhi : N ≤ (3131608634660847056703657014631/125000000000000000000000000 : ℝ) := by
    rw [hN]
    linarith
  have hwlo : (4037510407/2500000000 : ℝ) ≤ N / D := by
    rw [le_div_iff₀ hDpos]
    linarith
  have hwhi : N / D ≤ (16150041629/10000000000 : ℝ) := by
    rw [div_le_iff₀ hDpos]
    linarith
  have hwpos : (0:ℝ) < 622/1000 + N / D := by linarith
  have hpwlo : (1060977067/100000000 : ℝ) ≤ N / D * (14696/1000) / (622/1000 + N / D) := by
    rw [le_div_iff₀ hwpos]
    linarith
  have hpwhi : N / D * (14696/1000) / (622/1000 + N / D) ≤ (265244267/25000000 : ℝ) := by
    rw [div_le_iff₀ hwpos]
    linarith
  have hp70pos : (0:ℝ) < p70 := by linarith
  have hfracpos : (0:ℝ) < N / D * (14696/1000) / (622/1000 + N / D) / p70 := by
    apply div_pos (by linarith) hp70pos
  constructor
  · have h2 : (1060977067/100000000 : ℝ) / (24991282631257/1000000000000 : ℝ) ≤
        N / D * (14696/1000) / (622/1000 + N / D) / p70 := by
      apply div_le_div₀ (by linarith) hpwlo hp70pos
      linarith
    have h3 : (42:ℝ) ≤ (1060977067/100000000 : ℝ) / (24991282631257/1000000000000 : ℝ) * 100 := by
      norm_num
    linarith
  · have h2 : N / D * (14696/1000) / (622/1000 + N / D) / p70 ≤
        (265244267/25000000 : ℝ) / (12495641315627/500000000000 : ℝ) := by
      apply div_le_div₀ (by norm_num) hpwhi (by norm_num)
      linarith
    have h3 : ((265244267/25000000 : ℝ) / (12495641315627/500000000000 : ℝ)) * 100 ≤ 43 := by
      norm_num
    linarith

/-- C6, counterexample: at `T = 70 °F`, `RH = 95 %` (inside the claimed
ranges) the solver terminates after four iterations, yet the recovered
relative humidity is ≈ 42.45 %, off by more than 52 points — far outside the
0.5 % tolerance. -/
theorem c6_counterexample : ¬ claimC6 := by
  intro h
  have hc := h 70 95 (SystemPerf.wbSeq 70 95 4) (by norm_num) (by norm_num)
    (by norm_num) le_rfl wbRun_7095
  obtain ⟨h1, h2⟩ := rhout_7095 (SystemPerf.wbSeq 70 95 4) seq95_4.1 seq95_4.2
  rw [abs_le] at hc
  have := hc.1
  linarith

/-- C6, amended: the round trip does not hold — the two functions use
incompatible humidity-ratio conventions.  At `T = 70 °F`, `RH = 95 %` the
loop terminates and the recovered RH differs from the input by more than
50 points. -/
theorem c6_roundtrip_fails_at_70_95 :
    ∃ r, SystemPerf.WetBulbResult 70 95 r ∧
      50 < |SystemPerf.calculateRHFromWetBulb 70 r - 95| := by
  refine ⟨SystemPerf.wbSeq 70 95 4, wbRun_7095, ?_⟩
  obtain ⟨h1, h2⟩ := rhout_7095 (SystemPerf.wbSeq 70 95 4) seq95_4.1 seq95_4.2
  rw [abs_of_neg (by linarith)]
  linarith

end HVAC
